import Mathlib

/-!
# Operator console: menu state machine and renderer of `src/main/display_ui.c`,
and the menu state machine of `src/main/lcd_ui.c`

A shallow embedding of one pass through the `while(1)` loop of `display_ui_task`
together with `post_attack_request`, and of the renderer (`draw_char`,
`display_text`, `display_clear`, `display_update`, `display_print_lines`).
Machine integers are natural numbers with the wrap-around written out (`% 256`
for `uint8_t`, `% 2^32` for `TickType_t`); the `int` coordinates of the renderer
are integers.  C strings are lists of byte values; the renderer takes the value
of each `char` as an integer, so that both a signed and an unsigned `char` are
covered.  The framebuffer is a map from index to byte and the I2C bus is the
list of transactions issued.

Conventions of the embedding:

* the three buttons are polled in the order Up, Down, Middle; each poll is an
  input of the pass.  The release-wait loops
  (`while(read_button_x()) vTaskDelay(...)`) and the LED blinks touch no UI
  variable and are left out;
* `esp_event_post` wrapped in `ESP_ERROR_CHECK` aborts the firmware when the
  post fails: a pass that aborts has no successor state (`none`);
* what `attack_get_status()` returns is an input of the pass: a NULL pointer
  (`none`) or a record whose `state` field is read (`some st`).
-/

namespace DisplayUi

/-! ## Types and constants that come from headers outside `src/` -/

/-- Modelled from the spec: `attack.h` is not among the sources.  The spec gives
the state of an attack as Idle / Running / Finished-family; the code only ever
compares the state with `RUNNING`.  The terminal family is given two members. -/
inductive attack_state_t where
  | IDLE
  | RUNNING
  | FINISHED
  | TIMEOUT
deriving DecidableEq, Repr

/-- Modelled from the spec: the terminal (Finished-family) values of
`attack_state_t`, declared in `attack.h`. -/
def attack_state_t.terminal : attack_state_t → Bool
  | .FINISHED => true
  | .TIMEOUT => true
  | _ => false

/-- Modelled from the spec: `ATTACK_TYPE_HANDSHAKE` of `attack.h`; the spec
numbers Handshake 1, the index of "HANDSHAKE" in `attack_type_names`. -/
def ATTACK_TYPE_HANDSHAKE : Nat := 1

/-- Modelled from the spec: `ATTACK_TYPE_DOS` of `attack.h`; the fourth of the
four attack types, the index of "DOS" in `attack_type_names`. -/
def ATTACK_TYPE_DOS : Nat := 3

/-- The request handed to `esp_event_post` (four `uint8_t` fields). -/
structure attack_request_t where
  ap_record_id : Nat
  type : Nat
  method : Nat
  timeout : Nat
deriving DecidableEq, Repr

/-- What the task obtains once, before the loop, and the build constants. -/
structure Env where
  /-- `records ? records->count : 0` -/
  ap_count : Nat
  /-- the 32 SSID bytes of `wifictl_get_ap_record(i)` -/
  ap_ssid : Nat → List Nat
  /-- FreeRTOS tick rate -/
  configTICK_RATE_HZ : Nat

/-! ## The menu enumeration -/

def MENU_AP : Nat := 0
def MENU_TYPE : Nat := 1
def MENU_METHOD : Nat := 2
def MENU_TIMEOUT : Nat := 3
def MENU_START : Nat := 4

/-! ## State of the task -/

/-- The locals of `display_ui_task` that live across passes and the three
file-level statics written by `post_attack_request`. -/
structure UiState where
  menu : Nat
  selected_ap : Nat
  selected_type : Nat
  selected_method : Nat
  timeout : Nat
  ui_attack_start_tick : Nat
  ui_attack_timeout : Nat
  ui_triggered_attack : Bool
deriving DecidableEq, Repr

/-- Values at loop entry (lines 264-266 and 315-326). -/
def UiState.initial : UiState :=
  { menu := MENU_AP, selected_ap := 0, selected_type := 1, selected_method := 0,
    timeout := 30, ui_attack_start_tick := 0, ui_attack_timeout := 0,
    ui_triggered_attack := false }

/-- What one pass of the loop reads from outside. -/
structure Inputs where
  /-- `attack_get_status()`: NULL, or the `state` of the record pointed to -/
  attack_status : Option attack_state_t
  /-- `xTaskGetTickCount()` (read at most once in a pass) -/
  now : Nat
  /-- `read_button_up()` at line 404 -/
  button_up : Bool
  /-- `read_button_down()` at line 416 -/
  button_down : Bool
  /-- `read_button_middle()` at line 339, 356 or 428 -/
  button_middle : Bool
  /-- `esp_event_post(...) == ESP_OK` -/
  post_ok : Bool
deriving DecidableEq, Repr

/-- Which of the three rendering branches of the loop body ran. -/
inductive View where
  | running
  | finished
  | config (menu : Nat)
deriving DecidableEq, Repr

/-- What one pass of the loop emits: the two lines given to
`display_print_lines` and the requests given to `esp_event_post`. -/
structure Output where
  view : View
  line1 : List Nat
  line2 : List Nat
  posted : List attack_request_t
deriving DecidableEq, Repr

/-! ## Text formatting -/

/-- Bytes of a string literal. -/
def cstr (s : String) : List Nat := s.toList.map Char.toNat

/-- Truncation done by `snprintf(buf, size, ...)`: at most `size - 1` bytes. -/
def snprintf (size : Nat) (text : List Nat) : List Nat := text.take (size - 1)

/-- Conversion `%u`. -/
def fmt_u (n : Nat) : List Nat := cstr (Nat.repr n)

/-- Conversion `%3u`: right-aligned in a field of width 3. -/
def fmt_3u (n : Nat) : List Nat :=
  List.replicate (3 - (fmt_u n).length) 32 ++ fmt_u n

/-- Conversion `%.*s` with precision `prec`: the bytes before the first NUL,
at most `prec` of them. -/
def fmt_prec_s (prec : Nat) (buf : List Nat) : List Nat :=
  (buf.takeWhile (fun b => b != 0)).take prec

/-- Lines 375: `char ssid[33]; memset(ssid,0,33); memcpy(ssid, r->ssid, 32)`. -/
def ssid_copy (ssid : List Nat) : List Nat :=
  (ssid.take 32 ++ List.replicate (32 - ssid.length) 0) ++ [0]

/-- The three name tables of lines 322-324.  They are read with `List.getD`:
an index past the end, undefined behaviour in C, yields the empty string. -/
def attack_type_names : List (List Nat) :=
  [cstr "PASSIVE", cstr "HANDSHAKE", cstr "PMKID", cstr "DOS"]

def handshake_methods : List (List Nat) :=
  [cstr "ROGUE_AP", cstr "BROADCAST", cstr "PASSIVE"]

def dos_methods : List (List Nat) :=
  [cstr "ROGUE_AP", cstr "BROADCAST", cstr "COMBINE"]

/-! ## Tick arithmetic of the Running override -/

/-- Subtraction of two `TickType_t` (unsigned 32 bit). -/
def tick_sub (a b : Nat) : Nat := (a % 2 ^ 32 + 2 ^ 32 - b % 2 ^ 32) % 2 ^ 32

/-- Value of a 32-bit pattern read as `int`. -/
def to_int32 (z : Int) : Int :=
  if z % 2 ^ 32 < 2 ^ 31 then z % 2 ^ 32 else z % 2 ^ 32 - 2 ^ 32

/-- Lines 332-335: the number printed after "Left:". -/
def remaining_seconds (env : Env) (s : UiState) (now : Nat) : Nat :=
  let elapsed : Nat := tick_sub now s.ui_attack_start_tick / env.configTICK_RATE_HZ
  let remaining : Int := to_int32 ((s.ui_attack_timeout : Int) - to_int32 (elapsed : Int))
  let remaining : Int := if remaining < 0 then 0 else remaining
  remaining.toNat

/-! ## The loop body -/

/-- Lines 370-401: the `switch(menu)` that fills `line1` and `line2`
(both `char[33]`, zero-initialised). -/
def render_config (env : Env) (s : UiState) : List Nat × List Nat :=
  match s.menu with
  | 0 =>
    (snprintf 33 (cstr "AP " ++ fmt_u (s.selected_ap + 1) ++ cstr "/" ++ fmt_u env.ap_count),
     if 0 < env.ap_count then
       snprintf 33 (fmt_prec_s 32 (ssid_copy (env.ap_ssid s.selected_ap)))
     else snprintf 33 (cstr "No APs found"))
  | 1 =>
    (snprintf 33 (cstr "Type: " ++ attack_type_names.getD s.selected_type []),
     snprintf 33 (cstr "Use joystick"))
  | 2 =>
    ((if s.selected_type = ATTACK_TYPE_HANDSHAKE then
        snprintf 33 (cstr "Method: " ++ handshake_methods.getD (s.selected_method % 3) [])
      else if s.selected_type = ATTACK_TYPE_DOS then
        snprintf 33 (cstr "Method: " ++ dos_methods.getD (s.selected_method % 3) [])
      else snprintf 33 (cstr "Method: " ++ fmt_u s.selected_method)),
     snprintf 33 (cstr "(press to next)"))
  | 3 =>
    (snprintf 33 (cstr "Timeout: " ++ fmt_u s.timeout ++ cstr "s"),
     snprintf 33 (cstr "Press to edit"))
  | 4 =>
    (snprintf 33 (cstr "Start"), snprintf 33 (cstr "Press to confirm"))
  | _ => ([], [])

/-- Lines 405-408: body of `if(read_button_up())`. -/
def on_button_up (env : Env) (s : UiState) : UiState :=
  if s.menu = MENU_AP ∧ 0 < env.ap_count then
    (if 0 < s.selected_ap then { s with selected_ap := s.selected_ap - 1 } else s)
  else if s.menu = MENU_TYPE then
    (if 0 < s.selected_type then { s with selected_type := s.selected_type - 1 } else s)
  else if s.menu = MENU_METHOD then
    (if s.selected_type = ATTACK_TYPE_HANDSHAKE then
       (if 0 < s.selected_method then { s with selected_method := s.selected_method - 1 } else s)
     else if s.selected_type = ATTACK_TYPE_DOS then
       (if 0 < s.selected_method then { s with selected_method := s.selected_method - 1 } else s)
     else
       (if 0 < s.selected_method then { s with selected_method := s.selected_method - 1 } else s))
  else if s.menu = MENU_TIMEOUT then
    (if 5 < s.timeout then { s with timeout := s.timeout - 5 } else s)
  else s

/-- Lines 417-420: body of `if(read_button_down())`; the `uint8_t` updates wrap. -/
def on_button_down (env : Env) (s : UiState) : UiState :=
  if s.menu = MENU_AP ∧ 0 < env.ap_count then
    (if s.selected_ap + 1 < env.ap_count then
       { s with selected_ap := (s.selected_ap + 1) % 256 } else s)
  else if s.menu = MENU_TYPE then
    (if s.selected_type < 3 then { s with selected_type := (s.selected_type + 1) % 256 } else s)
  else if s.menu = MENU_METHOD then
    (if s.selected_type = ATTACK_TYPE_HANDSHAKE then
       { s with selected_method := (s.selected_method + 1) % 3 }
     else if s.selected_type = ATTACK_TYPE_DOS then
       { s with selected_method := (s.selected_method + 1) % 3 }
     else { s with selected_method := (s.selected_method + 1) % 256 })
  else if s.menu = MENU_TIMEOUT then
    { s with timeout := (s.timeout + 5) % 256 }
  else s

/-- Lines 268-275.  `none` is the abort of `ESP_ERROR_CHECK`. -/
def post_attack_request (ap_id type method timeout : Nat) (i : Inputs) (s : UiState) :
    Option (UiState × attack_request_t) :=
  let req : attack_request_t :=
    { ap_record_id := ap_id, type := type, method := method, timeout := timeout }
  if i.post_ok then
    some ({ s with ui_attack_start_tick := i.now,
                   ui_attack_timeout := timeout,
                   ui_triggered_attack := true }, req)
  else none

/-- Lines 434-439: body of the final `if(read_button_middle())`. -/
def on_button_middle (s : UiState) (i : Inputs) : Option (UiState × List attack_request_t) :=
  if s.menu = MENU_START then
    match post_attack_request s.selected_ap s.selected_type s.selected_method s.timeout i s with
    | some (s', req) => some (s', [req])
    | none => none
  else some ({ s with menu := (s.menu + 1) % 5 }, [])

/-- Test `attack_status && attack_status->state == RUNNING`. -/
def status_running : Option attack_state_t → Bool
  | some st => st == attack_state_t.RUNNING
  | none => false

/-- Test `attack_status && attack_status->state != RUNNING`. -/
def status_not_running : Option attack_state_t → Bool
  | some st => st != attack_state_t.RUNNING
  | none => false

/-- Lines 336-337: the text of the Running override. -/
def running_output (env : Env) (s : UiState) (now : Nat) : Output :=
  { view := View.running,
    line1 := snprintf 33 (cstr "ATTACK " ++ attack_type_names.getD s.selected_type []),
    line2 := snprintf 33 (cstr "Left: " ++ fmt_3u (remaining_seconds env s now) ++ cstr "s"),
    posted := [] }

/-- Lines 353-354: the text of the Finished override. -/
def finished_output : Output :=
  { view := View.finished,
    line1 := snprintf 33 (cstr "Attack finished"),
    line2 := snprintf 33 (cstr "Press to menu"),
    posted := [] }

/-- Lines 345-346 and 363-364: Select pressed on an override screen. -/
def leave_override (s : UiState) : UiState :=
  { s with menu := MENU_AP, ui_triggered_attack := false }

/-- Lines 370-443: the rest of the loop body once neither override applied. -/
def config_pass (env : Env) (s : UiState) (i : Inputs) : Option (UiState × Output) :=
  let lines := render_config env s
  let s1 := if i.button_up then on_button_up env s else s
  let s2 := if i.button_down then on_button_down env s1 else s1
  if i.button_middle then
    match on_button_middle s2 i with
    | some (s3, reqs) =>
      some (s3, { view := View.config s.menu, line1 := lines.1, line2 := lines.2,
                  posted := reqs })
    | none => none
  else
    some (s2, { view := View.config s.menu, line1 := lines.1, line2 := lines.2,
                posted := [] })

/-- Lines 329-443: one pass through the body of `while(1)`. -/
def display_ui_iter (env : Env) (s : UiState) (i : Inputs) : Option (UiState × Output) :=
  if s.ui_triggered_attack && status_running i.attack_status then
    if i.button_middle then some (leave_override s, running_output env s i.now)
    else some (s, running_output env s i.now)
  else if s.ui_triggered_attack && status_not_running i.attack_status then
    if i.button_middle then some (leave_override s, finished_output)
    else some (s, finished_output)
  else config_pass env s i

/-! ## Runs of the loop -/

/-- States the task can be in at the top of the loop. -/
inductive Reachable (env : Env) : UiState → Prop where
  | init : Reachable env UiState.initial
  | step {s s' : UiState} {out : Output} (i : Inputs) :
      Reachable env s → display_ui_iter env s i = some (s', out) → Reachable env s'

/-- Consecutive passes over a list of inputs; the outputs are collected. -/
def run (env : Env) : UiState → List Inputs → Option (UiState × List Output)
  | s, [] => some (s, [])
  | s, i :: rest =>
    match display_ui_iter env s i with
    | none => none
    | some (s', out) =>
      match run env s' rest with
      | none => none
      | some (s'', outs) => some (s'', out :: outs)

/-- A pass in which nothing is pressed. -/
def idle (st : Option attack_state_t) (now : Nat) : Inputs :=
  { attack_status := st, now := now, button_up := false, button_down := false,
    button_middle := false, post_ok := true }

/-- A pass in which only Up is pressed. -/
def pressUp (st : Option attack_state_t) (now : Nat) : Inputs :=
  { idle st now with button_up := true }

/-- A pass in which only Down is pressed. -/
def pressDown (st : Option attack_state_t) (now : Nat) : Inputs :=
  { idle st now with button_down := true }

/-- A pass in which only Select (the middle button) is pressed. -/
def pressSelect (st : Option attack_state_t) (now : Nat) : Inputs :=
  { idle st now with button_middle := true }

/-- A small environment with three access points. -/
def env3 : Env :=
  { ap_count := 3, ap_ssid := fun _ => cstr "net", configTICK_RATE_HZ := 100 }

/-! ## The renderer of `display_ui.c`: glyph table, framebuffer, text, flush -/

def DISPLAY_WIDTH : Int := 128
def DISPLAY_HEIGHT : Int := 64
def DISPLAY_PAGES : Int := DISPLAY_HEIGHT / 8
def SSD1306_ADDR : Nat := 0x3C

/-- ESP-IDF `driver/i2c.h`: the write bit of the address byte. -/
def I2C_MASTER_WRITE : Nat := 0

/-- The array `display_buffer[DISPLAY_WIDTH * DISPLAY_PAGES]` as a map from index
to byte.  Only the indices below 1024 exist in C. -/
abbrev Framebuffer := Nat → Nat

/-- Lines 127-224: one row of five column bytes per character code 32..127,
in the order of the source. -/
def font5x7 : List (List Nat) :=
  [
   [0x00, 0x00, 0x00, 0x00, 0x00], [0x00, 0x00, 0x5F, 0x00, 0x00], [0x00, 0x07, 0x00, 0x07, 0x00], [0x14, 0x7F, 0x14, 0x7F, 0x14],
   [0x24, 0x2A, 0x7F, 0x2A, 0x12], [0x23, 0x13, 0x08, 0x64, 0x62], [0x36, 0x49, 0x55, 0x22, 0x50], [0x00, 0x05, 0x03, 0x00, 0x00],
   [0x00, 0x1C, 0x22, 0x41, 0x00], [0x00, 0x41, 0x22, 0x1C, 0x00], [0x14, 0x08, 0x3E, 0x08, 0x14], [0x08, 0x08, 0x3E, 0x08, 0x08],
   [0x00, 0x50, 0x30, 0x00, 0x00], [0x08, 0x08, 0x08, 0x08, 0x08], [0x00, 0x60, 0x60, 0x00, 0x00], [0x20, 0x10, 0x08, 0x04, 0x02],
   [0x3E, 0x51, 0x49, 0x45, 0x3E], [0x00, 0x42, 0x7F, 0x40, 0x00], [0x42, 0x61, 0x51, 0x49, 0x46], [0x21, 0x41, 0x45, 0x4B, 0x31],
   [0x18, 0x14, 0x12, 0x7F, 0x10], [0x27, 0x45, 0x45, 0x45, 0x39], [0x3C, 0x4A, 0x49, 0x49, 0x30], [0x01, 0x71, 0x09, 0x05, 0x03],
   [0x36, 0x49, 0x49, 0x49, 0x36], [0x06, 0x49, 0x49, 0x29, 0x1E], [0x00, 0x36, 0x36, 0x00, 0x00], [0x00, 0x56, 0x36, 0x00, 0x00],
   [0x08, 0x14, 0x22, 0x41, 0x00], [0x14, 0x14, 0x14, 0x14, 0x14], [0x00, 0x41, 0x22, 0x14, 0x08], [0x02, 0x01, 0x51, 0x09, 0x06],
   [0x32, 0x49, 0x79, 0x41, 0x3E], [0x7E, 0x11, 0x11, 0x11, 0x7E], [0x7F, 0x49, 0x49, 0x49, 0x36], [0x3E, 0x41, 0x41, 0x41, 0x22],
   [0x7F, 0x41, 0x41, 0x22, 0x1C], [0x7F, 0x49, 0x49, 0x49, 0x41], [0x7F, 0x09, 0x09, 0x09, 0x01], [0x3E, 0x41, 0x49, 0x49, 0x7A],
   [0x7F, 0x08, 0x08, 0x08, 0x7F], [0x00, 0x41, 0x7F, 0x41, 0x00], [0x20, 0x40, 0x41, 0x3F, 0x01], [0x7F, 0x08, 0x14, 0x22, 0x41],
   [0x7F, 0x40, 0x40, 0x40, 0x40], [0x7F, 0x02, 0x04, 0x02, 0x7F], [0x7F, 0x04, 0x08, 0x10, 0x7F], [0x3E, 0x41, 0x41, 0x41, 0x3E],
   [0x7F, 0x09, 0x09, 0x09, 0x06], [0x3E, 0x41, 0x51, 0x21, 0x5E], [0x7F, 0x09, 0x19, 0x29, 0x46], [0x46, 0x49, 0x49, 0x49, 0x31],
   [0x01, 0x01, 0x7F, 0x01, 0x01], [0x3F, 0x40, 0x40, 0x40, 0x3F], [0x1F, 0x20, 0x40, 0x20, 0x1F], [0x3F, 0x40, 0x38, 0x40, 0x3F],
   [0x63, 0x14, 0x08, 0x14, 0x63], [0x07, 0x08, 0x70, 0x08, 0x07], [0x61, 0x51, 0x49, 0x45, 0x43], [0x00, 0x7F, 0x41, 0x41, 0x00],
   [0x02, 0x04, 0x08, 0x10, 0x20], [0x00, 0x41, 0x41, 0x7F, 0x00], [0x04, 0x02, 0x01, 0x02, 0x04], [0x40, 0x40, 0x40, 0x40, 0x40],
   [0x00, 0x01, 0x02, 0x04, 0x00], [0x20, 0x54, 0x54, 0x54, 0x78], [0x7F, 0x48, 0x44, 0x44, 0x38], [0x38, 0x44, 0x44, 0x44, 0x20],
   [0x38, 0x44, 0x44, 0x48, 0x7F], [0x38, 0x54, 0x54, 0x54, 0x18], [0x08, 0x7E, 0x09, 0x01, 0x02], [0x0C, 0x52, 0x52, 0x52, 0x3E],
   [0x7F, 0x08, 0x04, 0x04, 0x78], [0x00, 0x44, 0x7D, 0x40, 0x00], [0x20, 0x40, 0x44, 0x3D, 0x00], [0x7F, 0x10, 0x28, 0x44, 0x00],
   [0x00, 0x41, 0x7F, 0x40, 0x00], [0x7C, 0x04, 0x18, 0x04, 0x78], [0x7C, 0x08, 0x04, 0x04, 0x78], [0x38, 0x44, 0x44, 0x44, 0x38],
   [0x7C, 0x14, 0x14, 0x14, 0x08], [0x08, 0x14, 0x14, 0x18, 0x7C], [0x7C, 0x08, 0x04, 0x04, 0x08], [0x48, 0x54, 0x54, 0x54, 0x20],
   [0x04, 0x3F, 0x44, 0x40, 0x20], [0x3C, 0x40, 0x40, 0x20, 0x7C], [0x1C, 0x20, 0x40, 0x20, 0x1C], [0x3C, 0x40, 0x30, 0x40, 0x3C],
   [0x44, 0x28, 0x10, 0x28, 0x44], [0x0C, 0x50, 0x50, 0x50, 0x3C], [0x44, 0x64, 0x54, 0x4C, 0x44], [0x00, 0x08, 0x36, 0x41, 0x00],
   [0x00, 0x00, 0x7F, 0x00, 0x00], [0x00, 0x41, 0x36, 0x08, 0x00], [0x10, 0x08, 0x08, 0x10, 0x08], [0x00, 0x06, 0x09, 0x09, 0x06]
  ]

/-- Lines 98-100: `memset(display_buffer, 0x00, sizeof(display_buffer))`. -/
def display_clear (_fb : Framebuffer) : Framebuffer := fun _ => 0

/-- Lines 233-237: the loop `for (col = 0; col < 5; col++)` with `n` passes left
and loop variable `col`; it breaks at the right edge of the display. -/
def draw_cols (ch : List Nat) (page x : Int) : Nat → Int → Framebuffer → Framebuffer
  | 0, _, fb => fb
  | n + 1, col, fb =>
    if x + col ≥ DISPLAY_WIDTH then fb
    else
      draw_cols ch page x n (col + 1)
        (Function.update fb (page * DISPLAY_WIDTH + (x + col)).toNat (ch.getD col.toNat 0))

/-- Lines 227-242.  The argument `c` is the value of the `char` (negative for a
signed `char` with the high bit set); `/` of C truncates (`Int.tdiv`).  The
result is the framebuffer and the returned advance. -/
def draw_char (fb : Framebuffer) (x y : Int) (c : Int) : Framebuffer × Int :=
  let c : Int := if c < 32 ∨ c > 127 then 63 else c
  let ch : List Nat := font5x7.getD (c - 32).toNat []
  let page : Int := y.tdiv 8
  if page < 0 ∨ page ≥ DISPLAY_PAGES then (fb, 0)
  else if x < 0 ∨ x ≥ DISPLAY_WIDTH then (fb, 0)
  else
    let fb1 := draw_cols ch page x 5 0 fb
    let fb2 :=
      if x + 5 < DISPLAY_WIDTH then
        Function.update fb1 (page * DISPLAY_WIDTH + (x + 5)).toNat 0
      else fb1
    (fb2, 6)

/-- Lines 251-255: the loop `while (*text && curx < DISPLAY_WIDTH)`; the list
holds the characters `text` points to, a NUL or the end of the list ends it. -/
def display_text_loop (y : Int) : List Int → Int → Framebuffer → Framebuffer
  | [], _, fb => fb
  | c :: rest, curx, fb =>
    if c = 0 then fb
    else if curx < DISPLAY_WIDTH then
      display_text_loop y rest (curx + (draw_char fb curx y c).2) (draw_char fb curx y c).1
    else fb

/-- Lines 244-256.  `none` is a NULL `text`; `%` of C is `Int.tmod`. -/
def display_text (fb : Framebuffer) (x y : Int) (text : Option (List Int)) : Framebuffer :=
  match text with
  | none => fb
  | some t =>
    if y.tmod 8 ≠ 0 then fb
    else display_text_loop y t x fb

/-- One I2C transaction: the bytes queued between `i2c_master_start` and
`i2c_master_stop`, and the timeout given to `i2c_master_cmd_begin`. -/
structure I2cTransaction where
  bytes : List Nat
  timeout_ms : Nat
deriving DecidableEq, Repr

/-- Lines 104-113: the command transaction of one page. -/
def page_command (page : Nat) : I2cTransaction :=
  { bytes := [(SSD1306_ADDR <<< 1) ||| I2C_MASTER_WRITE, 0x00, 0xB0 ||| page, 0x00, 0x10],
    timeout_ms := 10 }

/-- Lines 115-122: the data transaction of one page. -/
def page_data (fb : Framebuffer) (page : Nat) : I2cTransaction :=
  { bytes := [(SSD1306_ADDR <<< 1) ||| I2C_MASTER_WRITE, 0x40]
      ++ (List.range 128).map (fun j => fb (page * 128 + j)),
    timeout_ms := 20 }

/-- Lines 103-123: the loop `for (page = 0; page < DISPLAY_PAGES; page++)` with
`n` passes left. -/
def display_update_pages (fb : Framebuffer) : Nat → Nat → List I2cTransaction
  | 0, _ => []
  | n + 1, page => page_command page :: page_data fb page :: display_update_pages fb n (page + 1)

/-- Lines 102-124: the framebuffer afterwards and the transactions issued. -/
def display_update (fb : Framebuffer) : Framebuffer × List I2cTransaction :=
  (fb, display_update_pages fb 8 0)

/-- Lines 258-263.  `none` is a NULL line. -/
def display_print_lines (fb : Framebuffer) (l1 l2 : Option (List Int)) :
    Framebuffer × List I2cTransaction :=
  let fb0 := display_clear fb
  let fb1 := display_text fb0 0 0 (some (l1.getD []))
  let fb2 := display_text fb1 0 32 (some (l2.getD []))
  display_update fb2

/-- The 128 bytes of one page of the framebuffer. -/
def page_bytes (fb : Framebuffer) (page : Nat) : List Nat :=
  (List.range 128).map (fun j => fb (page * 128 + j))

/-- The glyph row `draw_char` reads for a character value. -/
def glyph (c : Int) : List Nat :=
  font5x7.getD ((if c < 32 ∨ c > 127 then 63 else c) - 32).toNat []

/-- The characters of a C string: those before the first NUL. -/
def c_string (t : List Int) : List Int := t.takeWhile (fun c => c != 0)

/-- The byte `draw_char` leaves at offset `off` (0..5) from its `x`: the glyph
column for the first five offsets, the cleared spacer column for the sixth. -/
def glyph_cell (c : Int) (off : Nat) : Nat :=
  if off < 5 then (glyph c).getD off 0 else 0

/-! ## The indices `draw_char` uses -/

/-- Line 229: the index `c - 32`, after the substitution of line 228, with which
`draw_char` reads `font5x7`. -/
def font_row_index (c : Int) : Int := (if c < 32 ∨ c > 127 then 63 else c) - 32

/-- Lines 233-237 once more, this time collecting what the loop stores: the
index expression `page * DISPLAY_WIDTH + (x + col)` as the `int` it is in C, and
the byte, in program order. -/
def draw_cols_writes (ch : List Nat) (page x : Int) : Nat → Int → List (Int × Nat)
  | 0, _ => []
  | n + 1, col =>
    if x + col ≥ DISPLAY_WIDTH then []
    else
      (page * DISPLAY_WIDTH + (x + col), ch.getD col.toNat 0)
        :: draw_cols_writes ch page x n (col + 1)

/-- Lines 230-240: every store of `draw_char` into `display_buffer`, as index
and byte, in program order. -/
def draw_char_writes (x y c : Int) : List (Int × Nat) :=
  let page : Int := y.tdiv 8
  if page < 0 ∨ page ≥ DISPLAY_PAGES then []
  else if x < 0 ∨ x ≥ DISPLAY_WIDTH then []
  else
    draw_cols_writes (font5x7.getD (font_row_index c).toNat []) page x 5 0
      ++ (if x + 5 < DISPLAY_WIDTH then [(page * DISPLAY_WIDTH + (x + 5), 0)] else [])

/-- A sequence of stores carried out on a framebuffer. -/
def apply_writes (fb : Framebuffer) (ws : List (Int × Nat)) : Framebuffer :=
  ws.foldl (fun f w => Function.update f w.1.toNat w.2) fb

/-! ## The character-LCD variant, `src/main/lcd_ui.c`

The task `lcd_ui_task` has the same locals and statics as `display_ui_task`; its
two line buffers are `char[17]`. -/

/-- File `lcd_ui.c`, lines 157-164.  `none` is the abort of `ESP_ERROR_CHECK`. -/
def lcd_post_attack_request (ap_id type method timeout : Nat) (i : Inputs) (s : UiState) :
    Option (UiState × attack_request_t) :=
  let req : attack_request_t :=
    { ap_record_id := ap_id, type := type, method := method, timeout := timeout }
  if i.post_ok then
    some ({ s with ui_attack_start_tick := i.now,
                   ui_attack_timeout := timeout,
                   ui_triggered_attack := true }, req)
  else none

/-- File `lcd_ui.c`, lines 221-224: the number printed after "Left:". -/
def lcd_remaining_seconds (env : Env) (s : UiState) (now : Nat) : Nat :=
  let elapsed : Nat := tick_sub now s.ui_attack_start_tick / env.configTICK_RATE_HZ
  let remaining : Int := to_int32 ((s.ui_attack_timeout : Int) - to_int32 (elapsed : Int))
  let remaining : Int := if remaining < 0 then 0 else remaining
  remaining.toNat

/-- File `lcd_ui.c`, lines 261-292: the `switch(menu)` that fills `line1` and
`line2` (both `char[17]`, zero-initialised). -/
def lcd_render_config (env : Env) (s : UiState) : List Nat × List Nat :=
  match s.menu with
  | 0 =>
    (snprintf 17 (cstr "AP " ++ fmt_u (s.selected_ap + 1) ++ cstr "/" ++ fmt_u env.ap_count),
     if 0 < env.ap_count then
       snprintf 17 (fmt_prec_s 16 (ssid_copy (env.ap_ssid s.selected_ap)))
     else snprintf 17 (cstr "No APs found"))
  | 1 =>
    (snprintf 17 (cstr "Type: " ++ attack_type_names.getD s.selected_type []),
     snprintf 17 (cstr "Use joystick"))
  | 2 =>
    ((if s.selected_type = ATTACK_TYPE_HANDSHAKE then
        snprintf 17 (cstr "Method: " ++ handshake_methods.getD (s.selected_method % 3) [])
      else if s.selected_type = ATTACK_TYPE_DOS then
        snprintf 17 (cstr "Method: " ++ dos_methods.getD (s.selected_method % 3) [])
      else snprintf 17 (cstr "Method: " ++ fmt_u s.selected_method)),
     snprintf 17 (cstr "(press to next)"))
  | 3 =>
    (snprintf 17 (cstr "Timeout: " ++ fmt_u s.timeout ++ cstr "s"),
     snprintf 17 (cstr "Press to edit"))
  | 4 =>
    (snprintf 17 (cstr "Start"), snprintf 17 (cstr "Press to confirm"))
  | _ => ([], [])

/-- File `lcd_ui.c`, lines 296-299: body of `if(read_button_up())`. -/
def lcd_on_button_up (env : Env) (s : UiState) : UiState :=
  if s.menu = MENU_AP ∧ 0 < env.ap_count then
    (if 0 < s.selected_ap then { s with selected_ap := s.selected_ap - 1 } else s)
  else if s.menu = MENU_TYPE then
    (if 0 < s.selected_type then { s with selected_type := s.selected_type - 1 } else s)
  else if s.menu = MENU_METHOD then
    (if s.selected_type = ATTACK_TYPE_HANDSHAKE then
       (if 0 < s.selected_method then { s with selected_method := s.selected_method - 1 } else s)
     else if s.selected_type = ATTACK_TYPE_DOS then
       (if 0 < s.selected_method then { s with selected_method := s.selected_method - 1 } else s)
     else
       (if 0 < s.selected_method then { s with selected_method := s.selected_method - 1 } else s))
  else if s.menu = MENU_TIMEOUT then
    (if 5 < s.timeout then { s with timeout := s.timeout - 5 } else s)
  else s

/-- File `lcd_ui.c`, lines 309-312: body of `if(read_button_down())`. -/
def lcd_on_button_down (env : Env) (s : UiState) : UiState :=
  if s.menu = MENU_AP ∧ 0 < env.ap_count then
    (if s.selected_ap + 1 < env.ap_count then
       { s with selected_ap := (s.selected_ap + 1) % 256 } else s)
  else if s.menu = MENU_TYPE then
    (if s.selected_type < 3 then { s with selected_type := (s.selected_type + 1) % 256 } else s)
  else if s.menu = MENU_METHOD then
    (if s.selected_type = ATTACK_TYPE_HANDSHAKE then
       { s with selected_method := (s.selected_method + 1) % 3 }
     else if s.selected_type = ATTACK_TYPE_DOS then
       { s with selected_method := (s.selected_method + 1) % 3 }
     else { s with selected_method := (s.selected_method + 1) % 256 })
  else if s.menu = MENU_TIMEOUT then
    { s with timeout := (s.timeout + 5) % 256 }
  else s

/-- File `lcd_ui.c`, lines 328-334: body of the final `if(read_button_middle())`. -/
def lcd_on_button_middle (s : UiState) (i : Inputs) :
    Option (UiState × List attack_request_t) :=
  if s.menu = MENU_START then
    match lcd_post_attack_request s.selected_ap s.selected_type s.selected_method s.timeout
        i s with
    | some (s', req) => some (s', [req])
    | none => none
  else some ({ s with menu := (s.menu + 1) % 5 }, [])

/-- File `lcd_ui.c`, lines 225-226: the text of the Running override. -/
def lcd_running_output (env : Env) (s : UiState) (now : Nat) : Output :=
  { view := View.running,
    line1 := snprintf 17 (cstr "ATTACK " ++ attack_type_names.getD s.selected_type []),
    line2 := snprintf 17 (cstr "Left: " ++ fmt_3u (lcd_remaining_seconds env s now) ++ cstr "s"),
    posted := [] }

/-- File `lcd_ui.c`, lines 243-244: the text of the Finished override. -/
def lcd_finished_output : Output :=
  { view := View.finished,
    line1 := snprintf 17 (cstr "Attack finished"),
    line2 := snprintf 17 (cstr "Press to menu"),
    posted := [] }

/-- File `lcd_ui.c`, lines 235-236 and 254-255: Select pressed on an override
screen. -/
def lcd_leave_override (s : UiState) : UiState :=
  { s with menu := MENU_AP, ui_triggered_attack := false }

/-- File `lcd_ui.c`, lines 261-338: the rest of the loop body once neither
override applied. -/
def lcd_config_pass (env : Env) (s : UiState) (i : Inputs) : Option (UiState × Output) :=
  let lines := lcd_render_config env s
  let s1 := if i.button_up then lcd_on_button_up env s else s
  let s2 := if i.button_down then lcd_on_button_down env s1 else s1
  if i.button_middle then
    match lcd_on_button_middle s2 i with
    | some (s3, reqs) =>
      some (s3, { view := View.config s.menu, line1 := lines.1, line2 := lines.2,
                  posted := reqs })
    | none => none
  else
    some (s2, { view := View.config s.menu, line1 := lines.1, line2 := lines.2,
                posted := [] })

/-- File `lcd_ui.c`, lines 218-338: one pass through the body of `while(1)` of
`lcd_ui_task`; the lines of the output are those given to `lcd_print_lines`. -/
def lcd_ui_iter (env : Env) (s : UiState) (i : Inputs) : Option (UiState × Output) :=
  if s.ui_triggered_attack && status_running i.attack_status then
    if i.button_middle then some (lcd_leave_override s, lcd_running_output env s i.now)
    else some (s, lcd_running_output env s i.now)
  else if s.ui_triggered_attack && status_not_running i.attack_status then
    if i.button_middle then some (lcd_leave_override s, lcd_finished_output)
    else some (s, lcd_finished_output)
  else lcd_config_pass env s i

/-- An output with each line cut to its first 16 characters. -/
def first16 (out : Output) : Output :=
  { view := out.view, line1 := out.line1.take 16, line2 := out.line2.take 16,
    posted := out.posted }

/-! ## Auxiliary definitions used in the statements -/

/-- The part of the state that Up and Down may not touch on a given screen:
the screen itself, the three dispatch statics, and every selection field that
does not belong to the screen `s.menu`. -/
def frame_kept (s s' : UiState) : Prop :=
  s'.menu = s.menu
    ∧ s'.ui_triggered_attack = s.ui_triggered_attack
    ∧ s'.ui_attack_start_tick = s.ui_attack_start_tick
    ∧ s'.ui_attack_timeout = s.ui_attack_timeout
    ∧ (s.menu ≠ MENU_AP → s'.selected_ap = s.selected_ap)
    ∧ (s.menu ≠ MENU_TYPE → s'.selected_type = s.selected_type)
    ∧ (s.menu ≠ MENU_METHOD → s'.selected_method = s.selected_method)
    ∧ (s.menu ≠ MENU_TIMEOUT → s'.timeout = s.timeout)

/-- The state handed to the Select test of a configuration pass. -/
def after_up_down (env : Env) (s : UiState) (i : Inputs) : UiState :=
  if i.button_down then on_button_down env (if i.button_up then on_button_up env s else s)
  else (if i.button_up then on_button_up env s else s)

/-- The state right after the first dispatch made from the initial selection. -/
def dispatched0 : UiState :=
  { UiState.initial with menu := MENU_START, ui_attack_timeout := 30,
                         ui_triggered_attack := true }

/-- The state after a dispatch of the initial selection made at tick `tick`. -/
def dispatched_at (tick : Nat) : UiState :=
  { menu := MENU_START, selected_ap := 0, selected_type := 1, selected_method := 0,
    timeout := 30, ui_attack_start_tick := tick, ui_attack_timeout := 30,
    ui_triggered_attack := true }

/-- The environment `env3` built with a tick rate of one per second. -/
def env_1hz : Env :=
  { ap_count := 3, ap_ssid := fun _ => cstr "net", configTICK_RATE_HZ := 1 }

/-- Three Select presses reach the timeout screen, then 46 Down presses. -/
def timeout_wrap_inputs : List Inputs :=
  List.replicate 3 (pressSelect none 0) ++ List.replicate 46 (pressDown none 0)

/-- A method counted up to 5 under the Passive type, dispatched, and the type
then changed to Handshake before a second dispatch. -/
def method_carry_inputs : List Inputs :=
  [ pressSelect (some attack_state_t.IDLE) 0,
    pressUp (some attack_state_t.IDLE) 0,
    pressSelect (some attack_state_t.IDLE) 0 ]
  ++ List.replicate 5 (pressDown (some attack_state_t.IDLE) 0)
  ++ List.replicate 3 (pressSelect (some attack_state_t.IDLE) 0)
  ++ [ pressSelect (some attack_state_t.FINISHED) 0,
       pressSelect (some attack_state_t.FINISHED) 0,
       pressDown (some attack_state_t.FINISHED) 0 ]
  ++ List.replicate 4 (pressSelect (some attack_state_t.FINISHED) 0)

/-! ## Shape of one pass -/

/-- With the flag set and a status record present, the pass is an override:
the state changes only when Select is pressed. -/
theorem iter_of_override (env : Env) (s : UiState) (i : Inputs) (st : attack_state_t)
    (hflag : s.ui_triggered_attack = true) (hst : i.attack_status = some st) :
    display_ui_iter env s i =
      some (if i.button_middle then leave_override s else s,
            if st = attack_state_t.RUNNING then running_output env s i.now
            else finished_output) := by
  unfold display_ui_iter
  cases st <;> cases hm : i.button_middle <;>
    simp [hflag, hst, hm, status_running, status_not_running]

/-- With the flag clear or a NULL status, the pass is a configuration pass. -/
theorem iter_of_config (env : Env) (s : UiState) (i : Inputs)
    (h : s.ui_triggered_attack = false ∨ i.attack_status = none) :
    display_ui_iter env s i = config_pass env s i := by
  unfold display_ui_iter
  rcases h with h | h <;> simp [h, status_running, status_not_running]

/-- Up and Down do nothing on the Confirm screen. -/
theorem on_button_up_start (env : Env) (s : UiState) (h : s.menu = MENU_START) :
    on_button_up env s = s := by
  simp [on_button_up, h, MENU_START, MENU_AP, MENU_TYPE, MENU_METHOD, MENU_TIMEOUT]

theorem on_button_down_start (env : Env) (s : UiState) (h : s.menu = MENU_START) :
    on_button_down env s = s := by
  simp [on_button_down, h, MENU_START, MENU_AP, MENU_TYPE, MENU_METHOD, MENU_TIMEOUT]

/-- A run from a reachable state ends in a reachable state. -/
theorem reachable_of_run (env : Env) (is : List Inputs) :
    ∀ (s s' : UiState) (outs : List Output),
      Reachable env s → run env s is = some (s', outs) → Reachable env s' := by
  induction is with
  | nil =>
    intro s s' outs hs h
    simp [run] at h
    rw [← h.1]; exact hs
  | cons i rest ih =>
    intro s s' outs hs h
    simp only [run] at h
    cases hit : display_ui_iter env s i with
    | none => simp [hit] at h
    | some r =>
      obtain ⟨s1, out⟩ := r
      simp only [hit] at h
      cases hr : run env s1 rest with
      | none => simp [hr] at h
      | some r2 =>
        obtain ⟨s2, outs2⟩ := r2
        simp only [hr, Option.some.injEq, Prod.mk.injEq] at h
        rw [← h.1]
        exact ih s1 s2 outs2 (Reachable.step i hs hit) hr

/-- Induction principle for properties of the task state: a property that holds
initially and is kept by each of the four state updates of the loop body holds
in every reachable state. -/
theorem reachable_induction (env : Env) (P : UiState → Prop)
    (h0 : P UiState.initial)
    (hup : ∀ s, P s → P (on_button_up env s))
    (hdown : ∀ s, P s → P (on_button_down env s))
    (hmid : ∀ s i s' reqs, P s → on_button_middle s i = some (s', reqs) → P s')
    (hleave : ∀ s, P s → P (leave_override s)) :
    ∀ s, Reachable env s → P s := by
  intro s hs
  induction hs with
  | init => exact h0
  | @step s0 s1 out i _ hit ih =>
    unfold display_ui_iter at hit
    split at hit
    · split at hit
      · simp only [Option.some.injEq, Prod.mk.injEq] at hit
        rw [← hit.1]; exact hleave _ ih
      · simp only [Option.some.injEq, Prod.mk.injEq] at hit
        rw [← hit.1]; exact ih
    · split at hit
      · split at hit
        · simp only [Option.some.injEq, Prod.mk.injEq] at hit
          rw [← hit.1]; exact hleave _ ih
        · simp only [Option.some.injEq, Prod.mk.injEq] at hit
          rw [← hit.1]; exact ih
      · have h1 : P (if i.button_up then on_button_up env s0 else s0) := by
          split
          · exact hup _ ih
          · exact ih
        have h2 : P (if i.button_down then
            on_button_down env (if i.button_up then on_button_up env s0 else s0)
            else (if i.button_up then on_button_up env s0 else s0)) := by
          split
          · exact hdown _ h1
          · exact h1
        unfold config_pass at hit
        simp only at hit
        split at hit
        · split at hit
          · rename_i s3 reqs hm
            simp only [Option.some.injEq, Prod.mk.injEq] at hit
            rw [← hit.1]
            exact hmid _ i s3 reqs h2 hm
          · simp at hit
        · simp only [Option.some.injEq, Prod.mk.injEq] at hit
          rw [← hit.1]; exact h2

/-- What the Select handler can do to a state. -/
theorem on_button_middle_cases (s : UiState) (i : Inputs) (s' : UiState)
    (reqs : List attack_request_t) (h : on_button_middle s i = some (s', reqs)) :
    (s.menu = MENU_START ∧
      s' = { s with ui_attack_start_tick := i.now, ui_attack_timeout := s.timeout,
                    ui_triggered_attack := true }) ∨
    (s.menu ≠ MENU_START ∧ s' = { s with menu := (s.menu + 1) % 5 } ∧ reqs = []) := by
  unfold on_button_middle post_attack_request at h
  by_cases hm : s.menu = MENU_START
  · left
    refine ⟨hm, ?_⟩
    rw [if_pos hm] at h
    cases hok : i.post_ok <;> simp [hok] at h
    exact h.1.symm
  · right
    simp only [hm, if_false, Option.some.injEq, Prod.mk.injEq] at h
    exact ⟨hm, h.1.symm, h.2.symm⟩

/-- A pass of the configuration screens with only Up pressed. -/
theorem config_pass_pressUp (env : Env) (s : UiState) (st : Option attack_state_t) (now : Nat) :
    config_pass env s (pressUp st now) =
      some (on_button_up env s,
            { view := View.config s.menu, line1 := (render_config env s).1,
              line2 := (render_config env s).2, posted := [] }) := rfl

/-- A pass of the configuration screens with only Down pressed. -/
theorem config_pass_pressDown (env : Env) (s : UiState) (st : Option attack_state_t)
    (now : Nat) :
    config_pass env s (pressDown st now) =
      some (on_button_down env s,
            { view := View.config s.menu, line1 := (render_config env s).1,
              line2 := (render_config env s).2, posted := [] }) := rfl

/-- Up never raises the access-point index. -/
theorem on_button_up_selected_ap_le (env : Env) (s : UiState) :
    (on_button_up env s).selected_ap ≤ s.selected_ap := by
  unfold on_button_up
  repeat' split
  all_goals first
    | exact le_rfl
    | exact Nat.sub_le _ _

/-- Down keeps the access-point index below the count. -/
theorem on_button_down_selected_ap_lt (env : Env) (s : UiState)
    (h : s.selected_ap < env.ap_count) :
    (on_button_down env s).selected_ap < env.ap_count := by
  unfold on_button_down
  repeat' split
  all_goals first
    | exact h
    | exact lt_of_le_of_lt (Nat.mod_le _ _) (by assumption)

/-- Select never touches the four selection fields. -/
theorem on_button_middle_selection (s : UiState) (i : Inputs) (s' : UiState)
    (reqs : List attack_request_t) (h : on_button_middle s i = some (s', reqs)) :
    s'.selected_ap = s.selected_ap ∧ s'.selected_type = s.selected_type
      ∧ s'.selected_method = s.selected_method ∧ s'.timeout = s.timeout := by
  rcases on_button_middle_cases s i s' reqs h with ⟨_, hs⟩ | ⟨_, hs, _⟩ <;>
    simp [hs]

theorem frame_kept_refl (s : UiState) : frame_kept s s :=
  ⟨rfl, rfl, rfl, rfl, fun _ => rfl, fun _ => rfl, fun _ => rfl, fun _ => rfl⟩

theorem frame_kept_trans {a b c : UiState} (h1 : frame_kept a b) (h2 : frame_kept b c) :
    frame_kept a c := by
  obtain ⟨m1, f1, k1, b1, p1, q1, r1, t1⟩ := h1
  obtain ⟨m2, f2, k2, b2, p2, q2, r2, t2⟩ := h2
  rw [m1] at p2 q2 r2 t2
  exact ⟨m2.trans m1, f2.trans f1, k2.trans k1, b2.trans b1,
    fun h => (p2 h).trans (p1 h), fun h => (q2 h).trans (q1 h),
    fun h => (r2 h).trans (r1 h), fun h => (t2 h).trans (t1 h)⟩

theorem on_button_up_frame (env : Env) (s : UiState) : frame_kept s (on_button_up env s) := by
  unfold on_button_up frame_kept
  repeat' split
  all_goals simp_all

theorem on_button_down_frame (env : Env) (s : UiState) :
    frame_kept s (on_button_down env s) := by
  unfold on_button_down frame_kept
  repeat' split
  all_goals simp_all

theorem after_up_down_frame (env : Env) (s : UiState) (i : Inputs) :
    frame_kept s (after_up_down env s i) := by
  unfold after_up_down
  have h1 : frame_kept s (if i.button_up then on_button_up env s else s) := by
    split
    · exact on_button_up_frame env s
    · exact frame_kept_refl s
  split
  · exact frame_kept_trans h1 (on_button_down_frame env _)
  · exact h1

/-- A configuration pass without Select: the state after Up and Down. -/
theorem config_pass_no_select (env : Env) (s : UiState) (i : Inputs)
    (hmid : i.button_middle = false) :
    config_pass env s i =
      some (after_up_down env s i,
            { view := View.config s.menu, line1 := (render_config env s).1,
              line2 := (render_config env s).2, posted := [] }) := by
  simp [config_pass, after_up_down, hmid]

/-- A configuration pass with Select: the Select handler runs on the state
after Up and Down. -/
theorem config_pass_select (env : Env) (s : UiState) (i : Inputs)
    (hmid : i.button_middle = true) :
    config_pass env s i =
      (on_button_middle (after_up_down env s i) i).map
        (fun r => (r.1, { view := View.config s.menu, line1 := (render_config env s).1,
                          line2 := (render_config env s).2, posted := r.2 })) := by
  simp only [config_pass, after_up_down, hmid, if_true]
  cases on_button_middle
    (if i.button_down = true then
      on_button_down env (if i.button_up = true then on_button_up env s else s)
     else if i.button_up = true then on_button_up env s else s) i <;> rfl

/-- Select away from the Confirm screen steps the menu and posts nothing. -/
theorem on_button_middle_advance (s : UiState) (i : Inputs) (h : s.menu ≠ MENU_START) :
    on_button_middle s i = some ({ s with menu := (s.menu + 1) % 5 }, []) := by
  simp [on_button_middle, h]

/-- Select on the Confirm screen. -/
theorem on_button_middle_start (s : UiState) (i : Inputs) (h : s.menu = MENU_START) :
    on_button_middle s i =
      if i.post_ok then
        some ({ s with ui_attack_start_tick := i.now, ui_attack_timeout := s.timeout,
                       ui_triggered_attack := true },
              [{ ap_record_id := s.selected_ap, type := s.selected_type,
                 method := s.selected_method, timeout := s.timeout }])
      else none := by
  unfold on_button_middle post_attack_request
  rw [if_pos h]
  cases i.post_ok <;> rfl

/-- A configuration pass aborts exactly when Select is pressed on the Confirm
screen and the post fails. -/
theorem config_pass_eq_none_iff (env : Env) (s : UiState) (i : Inputs) :
    config_pass env s i = none ↔
      (s.menu = MENU_START ∧ i.button_middle = true ∧ i.post_ok = false) := by
  have hmenu : (after_up_down env s i).menu = s.menu := (after_up_down_frame env s i).1
  cases hmid : i.button_middle with
  | false => simp [config_pass_no_select env s i hmid]
  | true =>
    rw [config_pass_select env s i hmid]
    by_cases hs : s.menu = MENU_START
    · rw [on_button_middle_start _ i (hmenu.trans hs)]
      cases hok : i.post_ok <;> simp [hs]
    · rw [on_button_middle_advance _ i (by rw [hmenu]; exact hs)]
      simp [hs]

/-- A configuration pass that returns has rendered the screen `s.menu`, and the
flag it leaves is the old flag or, after a dispatch, set. -/
theorem config_pass_result (env : Env) (s : UiState) (i : Inputs) (s' : UiState)
    (out : Output) (h : config_pass env s i = some (s', out)) :
    out.view = View.config s.menu
      ∧ (s'.ui_triggered_attack = s.ui_triggered_attack ∨ s'.ui_triggered_attack = true) := by
  have hfr := after_up_down_frame env s i
  cases hmid : i.button_middle with
  | false =>
    rw [config_pass_no_select env s i hmid] at h
    simp only [Option.some.injEq, Prod.mk.injEq] at h
    obtain ⟨h1, h2⟩ := h
    subst h1 h2
    exact ⟨rfl, Or.inl hfr.2.1⟩
  | true =>
    rw [config_pass_select env s i hmid] at h
    cases hm : on_button_middle (after_up_down env s i) i with
    | none => simp [hm] at h
    | some r =>
      obtain ⟨s3, reqs⟩ := r
      simp only [hm, Option.map_some', Option.some.injEq, Prod.mk.injEq] at h
      obtain ⟨h1, h2⟩ := h
      subst h1 h2
      refine ⟨rfl, ?_⟩
      rcases on_button_middle_cases _ i _ _ hm with ⟨_, hs⟩ | ⟨_, hs, _⟩
      · right
        rw [hs]
      · left
        rw [hs]
        exact hfr.2.1

/-- The Running override never truncates its first line: "ATTACK " and a type
name fit the 33-byte buffer. -/
theorem running_line1_fits (ty : Nat) :
    snprintf 33 (cstr "ATTACK " ++ attack_type_names.getD ty [])
      = cstr "ATTACK " ++ attack_type_names.getD ty [] := by
  rcases Nat.lt_or_ge ty 4 with h | h
  · interval_cases ty <;> decide
  · have : attack_type_names.getD ty [] = [] := by
      apply List.getD_eq_default
      exact h
    rw [this]
    decide

/-! ## C1: no second dispatch while the flag is set -/

/-- C1, as stated, fails when `attack_get_status()` returns NULL: five Select
presses from the initial state dispatch once and leave the flag set; in the next
pass, with a NULL status, the Confirm screen is rendered again and a Select
press publishes a second request. -/
theorem second_dispatch_on_null_status :
    (run env3 UiState.initial (List.replicate 5 (pressSelect none 0))).map Prod.fst
        = some dispatched0
      ∧ dispatched0.ui_triggered_attack = true
      ∧ (display_ui_iter env3 dispatched0 (pressSelect none 7)).map
          (fun r => (r.2.view, r.2.posted))
        = some (View.config MENU_START,
                [{ ap_record_id := 0, type := 1, method := 0, timeout := 30 }]) := by
  decide

/-- C1 (amended): in every pass that starts with `ui_triggered_attack` set and
in which `attack_get_status()` returns a record (any state), an override screen
(Running or Finished) is rendered, no request is published, and the selection is
untouched whatever buttons are pressed: the successor state is the same state,
or, when Select is pressed, the same state with the menu at `MENU_AP` and the
flag cleared. -/
theorem override_blocks_second_dispatch (env : Env) (s : UiState) (i : Inputs)
    (st : attack_state_t)
    (hflag : s.ui_triggered_attack = true) (hst : i.attack_status = some st) :
    ∃ s' out, display_ui_iter env s i = some (s', out)
      ∧ (out.view = View.running ∨ out.view = View.finished)
      ∧ out.posted = []
      ∧ s' = (if i.button_middle then leave_override s else s)
      ∧ s'.selected_ap = s.selected_ap ∧ s'.selected_type = s.selected_type
      ∧ s'.selected_method = s.selected_method ∧ s'.timeout = s.timeout := by
  refine ⟨_, _, iter_of_override env s i st hflag hst, ?_, ?_, rfl, ?_⟩
  · by_cases h : st = attack_state_t.RUNNING <;> simp [h, running_output, finished_output]
  · by_cases h : st = attack_state_t.RUNNING <;> simp [h, running_output, finished_output]
  · cases i.button_middle <;> simp [leave_override]

theorem override_blocks_second_dispatch_witness :
    ∃ s' out, display_ui_iter env3 dispatched0
        { pressSelect (some attack_state_t.RUNNING) 7 with button_up := true } = some (s', out)
      ∧ (out.view = View.running ∨ out.view = View.finished)
      ∧ out.posted = []
      ∧ s' = (if ({ pressSelect (some attack_state_t.RUNNING) 7 with button_up := true }
                    : Inputs).button_middle
              then leave_override dispatched0 else dispatched0)
      ∧ s'.selected_ap = dispatched0.selected_ap
      ∧ s'.selected_type = dispatched0.selected_type
      ∧ s'.selected_method = dispatched0.selected_method
      ∧ s'.timeout = dispatched0.timeout :=
  override_blocks_second_dispatch env3 dispatched0
    { pressSelect (some attack_state_t.RUNNING) 7 with button_up := true }
    attack_state_t.RUNNING rfl rfl

/-! ## C2: dispatch on the Confirm screen -/

/-- C2: on the Confirm screen (a configuration pass with `menu = MENU_START`),
a Select press with a successful post publishes exactly one request carrying the
four selection fields, sets the flag, records the tick read in
`post_attack_request` and the same timeout as countdown base, and leaves
the selection and the menu as they were. -/
theorem confirm_select_dispatches (env : Env) (s : UiState) (i : Inputs)
    (hmenu : s.menu = MENU_START)
    (hcfg : s.ui_triggered_attack = false ∨ i.attack_status = none)
    (hmid : i.button_middle = true) (hok : i.post_ok = true) :
    display_ui_iter env s i =
      some ({ s with ui_attack_start_tick := i.now,
                     ui_attack_timeout := s.timeout,
                     ui_triggered_attack := true },
            { view := View.config MENU_START,
              line1 := cstr "Start", line2 := cstr "Press to confirm",
              posted := [{ ap_record_id := s.selected_ap, type := s.selected_type,
                           method := s.selected_method, timeout := s.timeout }] }) := by
  rw [iter_of_config env s i hcfg]
  have hu := on_button_up_start env s hmenu
  have hd := on_button_down_start env s hmenu
  have hl : render_config env s = (cstr "Start", cstr "Press to confirm") := by
    simp only [render_config, hmenu, MENU_START]
    decide
  unfold config_pass
  cases hbu : i.button_up <;> cases hbd : i.button_down <;>
    simp [hmid, hok, hu, hd, hl, hmenu, on_button_middle, post_attack_request]

theorem confirm_select_dispatches_witness :
    display_ui_iter env3 { UiState.initial with menu := MENU_START, selected_ap := 2 }
        (pressSelect (some attack_state_t.IDLE) 1234) =
      some ({ menu := MENU_START, selected_ap := 2, selected_type := 1, selected_method := 0,
              timeout := 30, ui_attack_start_tick := 1234, ui_attack_timeout := 30,
              ui_triggered_attack := true },
            { view := View.config MENU_START,
              line1 := cstr "Start", line2 := cstr "Press to confirm",
              posted := [{ ap_record_id := 2, type := 1, method := 0, timeout := 30 }] }) :=
  confirm_select_dispatches env3 { UiState.initial with menu := MENU_START, selected_ap := 2 }
    (pressSelect (some attack_state_t.IDLE) 1234) rfl (Or.inl rfl) rfl rfl

/-! ## C3: the timeout steps -/

/-- C3 fails on the code: `timeout` is a `uint8_t` and `timeout+=5` has no upper
guard, so from 30 the 46th Down press on the timeout screen wraps 255 + 5 to 4,
a reachable value that is neither a multiple of 5 nor at least 5. -/
theorem timeout_wraps_below_floor :
    (run env3 UiState.initial timeout_wrap_inputs).map (fun r => r.1.timeout) = some 4
      ∧ ∃ s, Reachable env3 s ∧ ¬ (s.timeout % 5 = 0 ∧ 5 ≤ s.timeout) := by
  have hrun : (run env3 UiState.initial timeout_wrap_inputs).map Prod.fst
      = some { UiState.initial with menu := MENU_TIMEOUT, timeout := 4 } := by
    decide
  cases hr : run env3 UiState.initial timeout_wrap_inputs with
  | none => simp [hr] at hrun
  | some r =>
    obtain ⟨s, outs⟩ := r
    simp only [hr, Option.map_some', Option.some.injEq] at hrun
    subst hrun
    refine ⟨rfl, _, reachable_of_run env3 _ _ _ _ Reachable.init hr, ?_⟩
    decide

/-! ## C4: the access-point index -/

/-- C5 fails on the code: the method is reduced modulo 3 only by a Down press on
the method screen under Handshake or DOS; a change of type leaves it alone.  The
run above reaches `selected_type = ATTACK_TYPE_HANDSHAKE` with
`selected_method = 5`, and its last pass publishes a Handshake request whose
method is 5. -/
theorem handshake_request_with_unnamed_method :
    (run env3 UiState.initial method_carry_inputs).map
        (fun r => (r.1.selected_type, r.1.selected_method, r.2.getLast?.map Output.posted))
      = some (ATTACK_TYPE_HANDSHAKE, 5,
              some [{ ap_record_id := 0, type := ATTACK_TYPE_HANDSHAKE, method := 5,
                      timeout := 30 }])
    ∧ ∃ s, Reachable env3 s ∧ s.selected_type = ATTACK_TYPE_HANDSHAKE
        ∧ ¬ s.selected_method < 3 := by
  have hrun : (run env3 UiState.initial method_carry_inputs).map
        (fun r => (r.1, r.2.getLast?.map Output.posted))
      = some ({ UiState.initial with menu := MENU_START, selected_method := 5,
                                     ui_attack_timeout := 30, ui_triggered_attack := true },
              some [{ ap_record_id := 0, type := ATTACK_TYPE_HANDSHAKE, method := 5,
                      timeout := 30 }]) := by
    decide
  cases hr : run env3 UiState.initial method_carry_inputs with
  | none => simp [hr] at hrun
  | some r =>
    obtain ⟨s, outs⟩ := r
    simp only [hr, Option.map_some', Option.some.injEq, Prod.mk.injEq] at hrun
    obtain ⟨hs, hp⟩ := hrun
    subst hs
    refine ⟨?_, _, reachable_of_run env3 _ _ _ _ Reachable.init hr, rfl, by decide⟩
    simp only [Option.map_some', hp]
    rfl

/-! ## C6: Select on the first four screens -/

/-- C6: on each of the first four configuration screens (`menu < 4`), a pass in
which only Select is pressed moves the menu to the next value in the order
`MENU_AP`, `MENU_TYPE`, `MENU_METHOD`, `MENU_TIMEOUT`, `MENU_START`, publishes
nothing and changes no other part of the state; and in every reachable state
the menu is one of the five values. -/
theorem select_advances_ring (env : Env) (s : UiState) (i : Inputs)
    (hmenu : s.menu < 4)
    (hcfg : s.ui_triggered_attack = false ∨ i.attack_status = none)
    (hup : i.button_up = false) (hdown : i.button_down = false)
    (hmid : i.button_middle = true) :
    (∃ out, display_ui_iter env s i = some ({ s with menu := s.menu + 1 }, out)
        ∧ out.posted = [] ∧ out.view = View.config s.menu)
    ∧ (MENU_AP + 1 = MENU_TYPE ∧ MENU_TYPE + 1 = MENU_METHOD
        ∧ MENU_METHOD + 1 = MENU_TIMEOUT ∧ MENU_TIMEOUT + 1 = MENU_START)
    ∧ (∀ r, Reachable env r → r.menu < 5) := by
  refine ⟨?_, ⟨rfl, rfl, rfl, rfl⟩, ?_⟩
  · have hne : s.menu ≠ MENU_START := by
      unfold MENU_START
      omega
    have hs : after_up_down env s i = s := by simp [after_up_down, hup, hdown]
    have hmod : (s.menu + 1) % 5 = s.menu + 1 := Nat.mod_eq_of_lt (by omega)
    rw [iter_of_config env s i hcfg, config_pass_select env s i hmid, hs,
      on_button_middle_advance s i hne, hmod]
    exact ⟨_, rfl, rfl, rfl⟩
  · apply reachable_induction env (fun r => r.menu < 5)
    · decide
    · intro r hr
      show (on_button_up env r).menu < 5
      rw [(on_button_up_frame env r).1]
      exact hr
    · intro r hr
      show (on_button_down env r).menu < 5
      rw [(on_button_down_frame env r).1]
      exact hr
    · intro r j r' reqs hr hm
      show r'.menu < 5
      rcases on_button_middle_cases r j r' reqs hm with ⟨_, h⟩ | ⟨_, h, _⟩
      · rw [h]
        exact hr
      · rw [h]
        exact Nat.mod_lt _ (by decide)
    · intro r _
      show (0 : Nat) < 5
      decide

theorem select_advances_ring_witness :
    (∃ out, display_ui_iter env3 { UiState.initial with menu := MENU_METHOD }
          (pressSelect none 0)
        = some ({ UiState.initial with menu := MENU_METHOD + 1 }, out)
        ∧ out.posted = [] ∧ out.view = View.config MENU_METHOD)
    ∧ (MENU_AP + 1 = MENU_TYPE ∧ MENU_TYPE + 1 = MENU_METHOD
        ∧ MENU_METHOD + 1 = MENU_TIMEOUT ∧ MENU_TIMEOUT + 1 = MENU_START)
    ∧ (∀ r, Reachable env3 r → r.menu < 5) :=
  select_advances_ring env3 { UiState.initial with menu := MENU_METHOD }
    (pressSelect none 0) (by decide) (Or.inl rfl) rfl rfl rfl

/-! ## C7: frame of Up and Down -/

/-- C7: in a configuration pass without Select, whatever the screen and the
selection and whichever of Up and Down are pressed, the screen, the dispatch
flag, the dispatch tick and the countdown base stay as they were, nothing is
published, and a selection field changes only on its own screen: `selected_ap`
only on `MENU_AP`, `selected_type` only on `MENU_TYPE`, `selected_method` only
on `MENU_METHOD`, `timeout` only on `MENU_TIMEOUT` (so nothing on
`MENU_START`). -/
theorem up_down_touch_own_field_only (env : Env) (s : UiState) (i : Inputs)
    (hcfg : s.ui_triggered_attack = false ∨ i.attack_status = none)
    (hmid : i.button_middle = false) :
    ∃ s' out, display_ui_iter env s i = some (s', out)
      ∧ out.posted = []
      ∧ s'.menu = s.menu
      ∧ s'.ui_triggered_attack = s.ui_triggered_attack
      ∧ s'.ui_attack_start_tick = s.ui_attack_start_tick
      ∧ s'.ui_attack_timeout = s.ui_attack_timeout
      ∧ (s.menu ≠ MENU_AP → s'.selected_ap = s.selected_ap)
      ∧ (s.menu ≠ MENU_TYPE → s'.selected_type = s.selected_type)
      ∧ (s.menu ≠ MENU_METHOD → s'.selected_method = s.selected_method)
      ∧ (s.menu ≠ MENU_TIMEOUT → s'.timeout = s.timeout) := by
  rw [iter_of_config env s i hcfg, config_pass_no_select env s i hmid]
  exact ⟨_, _, rfl, rfl, after_up_down_frame env s i⟩

theorem up_down_touch_own_field_only_witness :
    ∃ s' out, display_ui_iter env3 { UiState.initial with menu := MENU_TIMEOUT }
        { pressUp none 0 with button_down := true } = some (s', out)
      ∧ out.posted = []
      ∧ s'.menu = MENU_TIMEOUT
      ∧ s'.ui_triggered_attack = false
      ∧ s'.ui_attack_start_tick = 0
      ∧ s'.ui_attack_timeout = 0
      ∧ (MENU_TIMEOUT ≠ MENU_AP → s'.selected_ap = 0)
      ∧ (MENU_TIMEOUT ≠ MENU_TYPE → s'.selected_type = 1)
      ∧ (MENU_TIMEOUT ≠ MENU_METHOD → s'.selected_method = 0)
      ∧ (MENU_TIMEOUT ≠ MENU_TIMEOUT → s'.timeout = 30) :=
  up_down_touch_own_field_only env3 { UiState.initial with menu := MENU_TIMEOUT }
    { pressUp none 0 with button_down := true } (Or.inl rfl) rfl

/-! ## C8: leaving an override screen -/

/-- C8: with the flag set and a status record of any state, a pass in which
Select is pressed renders the override (Running for `RUNNING`, Finished
otherwise), sets the menu to `MENU_AP`, clears the flag and keeps `selected_ap`,
`selected_type`, `selected_method` and `timeout`; the pass after it, whatever
its inputs and status (NULL included), returns and has rendered the
configuration screen `MENU_AP`. -/
theorem override_select_returns_to_menu (env : Env) (s : UiState) (i : Inputs)
    (st : attack_state_t)
    (hflag : s.ui_triggered_attack = true) (hst : i.attack_status = some st)
    (hmid : i.button_middle = true) :
    ∃ s' out, display_ui_iter env s i = some (s', out)
      ∧ out.view = (if st = attack_state_t.RUNNING then View.running else View.finished)
      ∧ s'.menu = MENU_AP ∧ s'.ui_triggered_attack = false
      ∧ s'.selected_ap = s.selected_ap ∧ s'.selected_type = s.selected_type
      ∧ s'.selected_method = s.selected_method ∧ s'.timeout = s.timeout
      ∧ ∀ i2 : Inputs, ∃ s2 out2, display_ui_iter env s' i2 = some (s2, out2)
          ∧ out2.view = View.config MENU_AP := by
  refine ⟨_, _, iter_of_override env s i st hflag hst, ?_, ?_⟩
  · by_cases h : st = attack_state_t.RUNNING <;> simp [h, running_output, finished_output]
  · rw [hmid]
    refine ⟨rfl, rfl, rfl, rfl, rfl, rfl, ?_⟩
    intro i2
    have hcfg : display_ui_iter env (leave_override s) i2
        = config_pass env (leave_override s) i2 :=
      iter_of_config env _ i2 (Or.inl rfl)
    simp only [if_true]
    cases hc : config_pass env (leave_override s) i2 with
    | none =>
      have := (config_pass_eq_none_iff env _ i2).1 hc
      exact absurd this.1 (show (0 : Nat) ≠ 4 by decide)
    | some r =>
      obtain ⟨s2, out2⟩ := r
      exact ⟨s2, out2, hcfg.trans hc, (config_pass_result env _ i2 s2 out2 hc).1⟩

theorem override_select_returns_to_menu_witness :
    ∃ s' out, display_ui_iter env3 dispatched0 (pressSelect (some attack_state_t.FINISHED) 9)
        = some (s', out)
      ∧ out.view = (if attack_state_t.FINISHED = attack_state_t.RUNNING then View.running
                    else View.finished)
      ∧ s'.menu = MENU_AP ∧ s'.ui_triggered_attack = false
      ∧ s'.selected_ap = dispatched0.selected_ap
      ∧ s'.selected_type = dispatched0.selected_type
      ∧ s'.selected_method = dispatched0.selected_method
      ∧ s'.timeout = dispatched0.timeout
      ∧ ∀ i2 : Inputs, ∃ s2 out2, display_ui_iter env3 s' i2 = some (s2, out2)
          ∧ out2.view = View.config MENU_AP :=
  override_select_returns_to_menu env3 dispatched0
    (pressSelect (some attack_state_t.FINISHED) 9) attack_state_t.FINISHED rfl rfl rfl

/-! ## C9: the flag is cleared by an override Select only -/

/-- C9: in a pass that starts with the flag set, for every tick count and every
status: when a status record is present the pass returns and the flag
afterwards is set exactly when Select was not pressed (the override screens);
when the status is NULL every successor state has the flag set; and the only
pass without a successor is the aborted post (NULL status, Confirm screen,
Select pressed, `esp_event_post` failing). -/
theorem flag_cleared_only_by_override_select (env : Env) (s : UiState) (i : Inputs)
    (hflag : s.ui_triggered_attack = true) :
    (∀ st, i.attack_status = some st →
        ∃ s' out, display_ui_iter env s i = some (s', out)
          ∧ (out.view = View.running ∨ out.view = View.finished)
          ∧ s'.ui_triggered_attack = !i.button_middle)
    ∧ (i.attack_status = none →
        ∀ s' out, display_ui_iter env s i = some (s', out) → s'.ui_triggered_attack = true)
    ∧ (display_ui_iter env s i = none ↔
        (i.attack_status = none ∧ s.menu = MENU_START ∧ i.button_middle = true
          ∧ i.post_ok = false)) := by
  refine ⟨?_, ?_, ?_⟩
  · intro st hst
    refine ⟨_, _, iter_of_override env s i st hflag hst, ?_, ?_⟩
    · by_cases h : st = attack_state_t.RUNNING <;> simp [h, running_output, finished_output]
    · cases i.button_middle <;> simp [leave_override, hflag]
  · intro hnone s' out h
    rw [iter_of_config env s i (Or.inr hnone)] at h
    rcases (config_pass_result env s i s' out h).2 with h2 | h2
    · rw [h2, hflag]
    · exact h2
  · cases hst : i.attack_status with
    | none =>
      rw [iter_of_config env s i (Or.inr hst), config_pass_eq_none_iff]
      simp
    | some st =>
      rw [iter_of_override env s i st hflag hst]
      simp

theorem flag_cleared_only_by_override_select_witness :
    (∀ st, (idle (some attack_state_t.TIMEOUT) 100000).attack_status = some st →
        ∃ s' out, display_ui_iter env3 dispatched0 (idle (some attack_state_t.TIMEOUT) 100000)
            = some (s', out)
          ∧ (out.view = View.running ∨ out.view = View.finished)
          ∧ s'.ui_triggered_attack = !(idle (some attack_state_t.TIMEOUT) 100000).button_middle)
    ∧ ((idle (some attack_state_t.TIMEOUT) 100000).attack_status = none →
        ∀ s' out, display_ui_iter env3 dispatched0 (idle (some attack_state_t.TIMEOUT) 100000)
            = some (s', out) → s'.ui_triggered_attack = true)
    ∧ (display_ui_iter env3 dispatched0 (idle (some attack_state_t.TIMEOUT) 100000) = none ↔
        ((idle (some attack_state_t.TIMEOUT) 100000).attack_status = none
          ∧ dispatched0.menu = MENU_START
          ∧ (idle (some attack_state_t.TIMEOUT) 100000).button_middle = true
          ∧ (idle (some attack_state_t.TIMEOUT) 100000).post_ok = false)) :=
  flag_cleared_only_by_override_select env3 dispatched0
    (idle (some attack_state_t.TIMEOUT) 100000) rfl

/-! ## C10: which override is rendered -/

/-- C10, as stated, fails for the Idle state: with the flag set and a status
whose state is `IDLE`, which is not a terminal value, the pass renders the
Finished override. -/
theorem finished_override_on_idle_status :
    attack_state_t.IDLE.terminal = false
      ∧ dispatched0.ui_triggered_attack = true
      ∧ (display_ui_iter env3 dispatched0 (idle (some attack_state_t.IDLE) 7)).map
          (fun r => (r.2.view, r.2.line1, r.2.line2))
        = some (View.finished, cstr "Attack finished", cstr "Press to menu") := by
  decide

/-- C10 (amended): with the flag set and a status record present, the pass
renders the Running override ("ATTACK " and the type name, "Left: " and the
remaining seconds in a field of width 3 followed by "s") exactly when the state
is `RUNNING`, and the Finished override ("Attack finished", "Press to menu")
exactly when the state is any other value, Idle included. -/
theorem override_screen_by_status (env : Env) (s : UiState) (i : Inputs)
    (st : attack_state_t)
    (hflag : s.ui_triggered_attack = true) (hst : i.attack_status = some st) :
    ∃ s' out, display_ui_iter env s i = some (s', out)
      ∧ (out.view = View.running ↔ st = attack_state_t.RUNNING)
      ∧ (out.view = View.finished ↔ st ≠ attack_state_t.RUNNING)
      ∧ (st = attack_state_t.RUNNING →
          out.line1 = cstr "ATTACK " ++ attack_type_names.getD s.selected_type []
          ∧ out.line2 = snprintf 33
              (cstr "Left: " ++ fmt_3u (remaining_seconds env s i.now) ++ cstr "s"))
      ∧ (st ≠ attack_state_t.RUNNING →
          out.line1 = cstr "Attack finished" ∧ out.line2 = cstr "Press to menu") := by
  refine ⟨_, _, iter_of_override env s i st hflag hst, ?_⟩
  by_cases h : st = attack_state_t.RUNNING
  · simp only [h, if_true, running_output, ne_eq, not_true_eq_false, true_iff, iff_false,
      false_implies, and_true, true_implies, running_line1_fits]
    simp
  · simp only [h, if_false, finished_output, ne_eq, not_false_eq_true, iff_true, iff_false,
      false_implies, true_implies, true_and]
    exact ⟨by simp, by decide, by decide⟩

theorem override_screen_by_status_witness :
    ∃ s' out, display_ui_iter env3 dispatched0 (idle (some attack_state_t.RUNNING) 1000)
        = some (s', out)
      ∧ (out.view = View.running ↔ attack_state_t.RUNNING = attack_state_t.RUNNING)
      ∧ (out.view = View.finished ↔ attack_state_t.RUNNING ≠ attack_state_t.RUNNING)
      ∧ (attack_state_t.RUNNING = attack_state_t.RUNNING →
          out.line1 = cstr "ATTACK " ++ attack_type_names.getD dispatched0.selected_type []
          ∧ out.line2 = snprintf 33
              (cstr "Left: " ++ fmt_3u (remaining_seconds env3 dispatched0
                (idle (some attack_state_t.RUNNING) 1000).now) ++ cstr "s"))
      ∧ (attack_state_t.RUNNING ≠ attack_state_t.RUNNING →
          out.line1 = cstr "Attack finished" ∧ out.line2 = cstr "Press to menu") :=
  override_screen_by_status env3 dispatched0 (idle (some attack_state_t.RUNNING) 1000)
    attack_state_t.RUNNING rfl rfl

/-! ## The renderer, byte by byte -/

/-- The column loop writes `ch[j]` at column `x + j` for the loop values `j`
that stay on the display, and nothing else. -/
theorem draw_cols_apply (ch : List Nat) (p x : Nat) (n : Nat) :
    ∀ (col : Nat) (fb : Framebuffer) (k : Nat),
      draw_cols ch (p : Int) (x : Int) n (col : Int) fb k =
        if p * 128 + x + col ≤ k ∧ k < p * 128 + x + col + n ∧ k < p * 128 + 128 then
          ch.getD (k - (p * 128 + x)) 0
        else fb k := by
  induction n with
  | zero =>
    intro col fb k
    simp only [draw_cols]
    rw [if_neg (by omega)]
  | succ n ih =>
    intro col fb k
    simp only [draw_cols]
    by_cases hedge : (x : Int) + (col : Int) ≥ DISPLAY_WIDTH
    · rw [if_pos hedge, if_neg]
      unfold DISPLAY_WIDTH at hedge
      omega
    · rw [if_neg hedge]
      have hidx : ((p : Int) * DISPLAY_WIDTH + ((x : Int) + (col : Int))).toNat
          = p * 128 + x + col := by
        unfold DISPLAY_WIDTH
        omega
      have hcol : ((col : Int) + 1) = ((col + 1 : Nat) : Int) := by push_cast; rfl
      rw [hidx, hcol, ih (col + 1), Int.toNat_ofNat]
      unfold DISPLAY_WIDTH at hedge
      by_cases hk : k = p * 128 + x + col
      · subst hk
        rw [if_neg (by omega), Function.update_same, if_pos (by omega)]
        congr 1
        omega
      · rw [Function.update_noteq hk]
        by_cases h1 : p * 128 + x + (col + 1) ≤ k ∧ k < p * 128 + x + (col + 1) + n
            ∧ k < p * 128 + 128
        · rw [if_pos h1, if_pos (by omega)]
        · rw [if_neg h1, if_neg (by omega)]

/-- The page of an aligned row inside the display. -/
theorem tdiv_page (p : Nat) : ((8 : Int) * (p : Int)).tdiv 8 = (p : Int) := by
  rw [Int.tdiv_eq_ediv (by omega) (by omega)]
  omega

/-- The body of `draw_char` with the glyph row named. -/
theorem draw_char_eq (fb : Framebuffer) (x y c : Int) :
    draw_char fb x y c =
      if y.tdiv 8 < 0 ∨ y.tdiv 8 ≥ DISPLAY_PAGES then (fb, 0)
      else if x < 0 ∨ x ≥ DISPLAY_WIDTH then (fb, 0)
      else
        (if x + 5 < DISPLAY_WIDTH then
           Function.update (draw_cols (glyph c) (y.tdiv 8) x 5 0 fb)
             (y.tdiv 8 * DISPLAY_WIDTH + (x + 5)).toNat 0
         else draw_cols (glyph c) (y.tdiv 8) x 5 0 fb, 6) := rfl

/-- On a page of the display and at a column of the display, `draw_char`
advances by 6 and leaves the glyph cells at columns `x .. x+5`, cut at the right
edge, every other byte being as before. -/
theorem draw_char_apply (fb : Framebuffer) (p x : Nat) (c : Int) (hp : p < 8) (hx : x < 128) :
    (draw_char fb (x : Int) (8 * (p : Int)) c).2 = 6
      ∧ ∀ k, (draw_char fb (x : Int) (8 * (p : Int)) c).1 k =
          if p * 128 + x ≤ k ∧ k < p * 128 + x + 6 ∧ k < p * 128 + 128 then
            glyph_cell c (k - (p * 128 + x))
          else fb k := by
  have hpage : ¬ (((8 : Int) * (p : Int)).tdiv 8 < 0
      ∨ ((8 : Int) * (p : Int)).tdiv 8 ≥ DISPLAY_PAGES) := by
    rw [tdiv_page]
    unfold DISPLAY_PAGES DISPLAY_HEIGHT
    omega
  have hcol : ¬ ((x : Int) < 0 ∨ (x : Int) ≥ DISPLAY_WIDTH) := by
    unfold DISPLAY_WIDTH
    omega
  rw [draw_char_eq, if_neg hpage, if_neg hcol, tdiv_page]
  refine ⟨rfl, ?_⟩
  intro k
  have h0 : (0 : Int) = ((0 : Nat) : Int) := rfl
  dsimp only
  by_cases h5 : (x : Int) + 5 < DISPLAY_WIDTH
  · rw [if_pos h5]
    have hidx : ((p : Int) * DISPLAY_WIDTH + ((x : Int) + 5)).toNat = p * 128 + x + 5 := by
      unfold DISPLAY_WIDTH
      omega
    unfold DISPLAY_WIDTH at h5
    rw [hidx]
    by_cases hk : k = p * 128 + x + 5
    · subst hk
      rw [Function.update_same, if_pos (by omega)]
      unfold glyph_cell
      rw [if_neg (by omega)]
    · rw [Function.update_noteq hk, h0, draw_cols_apply]
      by_cases h1 : p * 128 + x + 0 ≤ k ∧ k < p * 128 + x + 0 + 5 ∧ k < p * 128 + 128
      · rw [if_pos h1, if_pos (by omega)]
        unfold glyph_cell
        rw [if_pos (show k - (p * 128 + x) < 5 by omega)]
      · rw [if_neg h1, if_neg (by omega)]
  · rw [if_neg h5, h0, draw_cols_apply]
    unfold DISPLAY_WIDTH at h5
    by_cases h1 : p * 128 + x + 0 ≤ k ∧ k < p * 128 + x + 0 + 5 ∧ k < p * 128 + 128
    · rw [if_pos h1, if_pos (by omega)]
      unfold glyph_cell
      rw [if_pos (show k - (p * 128 + x) < 5 by omega)]
    · rw [if_neg h1, if_neg (by omega)]

/-- A string with a leading non-NUL character. -/
theorem c_string_cons (c : Int) (rest : List Int) (hc : c ≠ 0) :
    c_string (c :: rest) = c :: c_string rest := by
  simp [c_string, List.takeWhile_cons, hc]

/-- A string that starts with NUL is empty. -/
theorem c_string_nul (rest : List Int) : c_string (0 :: rest) = [] := by
  simp [c_string, List.takeWhile]

/-- The text loop on a page of the display, started at a column `x` that is
not negative: character `i` of the string fills the six cells from column
`x + 6 i` as far as they are on the display; every other byte is as before. -/
theorem display_text_loop_apply (p : Nat) (hp : p < 8) (t : List Int) :
    ∀ (x : Nat) (fb : Framebuffer) (k : Nat),
      display_text_loop (8 * (p : Int)) t (x : Int) fb k =
        if p * 128 + x ≤ k ∧ k < p * 128 + 128
            ∧ (k - (p * 128 + x)) / 6 < (c_string t).length then
          glyph_cell ((c_string t).getD ((k - (p * 128 + x)) / 6) 0) ((k - (p * 128 + x)) % 6)
        else fb k := by
  induction t with
  | nil =>
    intro x fb k
    simp [display_text_loop, c_string]
  | cons c rest ih =>
    intro x fb k
    unfold display_text_loop
    by_cases hc : c = 0
    · subst hc
      rw [if_pos rfl, c_string_nul]
      simp
    · rw [if_neg hc, c_string_cons c rest hc]
      by_cases hx : (x : Int) < DISPLAY_WIDTH
      · rw [if_pos hx]
        unfold DISPLAY_WIDTH at hx
        have hx' : x < 128 := by omega
        obtain ⟨hadv, hfb⟩ := draw_char_apply fb p x c hp hx'
        have hnext : (x : Int) + (draw_char fb (x : Int) (8 * (p : Int)) c).2
            = ((x + 6 : Nat) : Int) := by
          rw [hadv]
          push_cast
          rfl
        rw [hnext, ih (x + 6), hfb k]
        by_cases hin : p * 128 + x ≤ k ∧ k < p * 128 + 128
        · by_cases hfirst : k < p * 128 + x + 6
          · rw [if_neg (by omega), if_pos (by omega), if_pos]
            · have hq : (k - (p * 128 + x)) / 6 = 0 := by omega
              have hr : (k - (p * 128 + x)) % 6 = k - (p * 128 + x) := by omega
              rw [hq, hr]
              rfl
            · refine ⟨hin.1, hin.2, ?_⟩
              have hq : (k - (p * 128 + x)) / 6 = 0 := by omega
              rw [hq]
              simp
          · have hq : (k - (p * 128 + x)) / 6 = (k - (p * 128 + (x + 6))) / 6 + 1 := by omega
            have hr : (k - (p * 128 + x)) % 6 = (k - (p * 128 + (x + 6))) % 6 := by omega
            by_cases hlen : (k - (p * 128 + (x + 6))) / 6 < (c_string rest).length
            · rw [if_pos ⟨by omega, hin.2, hlen⟩, if_pos ⟨hin.1, hin.2, by
                rw [hq, List.length_cons]; omega⟩, hq, hr]
              rfl
            · rw [if_neg (fun h => hlen h.2.2), if_neg (by omega), if_neg]
              intro h
              apply hlen
              have := h.2.2
              rw [hq, List.length_cons] at this
              omega
        · rw [if_neg (by omega), if_neg (by omega), if_neg (by omega)]
      · rw [if_neg hx, if_neg]
        unfold DISPLAY_WIDTH at hx
        omega

/-! ## Decimal text of a number -/

/-- The digit loop of `Nat.repr` adds at most `k` characters for a number
below `10 ^ k`. -/
theorem toDigitsCore_length_le (fuel : Nat) :
    ∀ (n k : Nat) (ds : List Char), 0 < k → n < 10 ^ k →
      (Nat.toDigitsCore 10 fuel n ds).length ≤ ds.length + k := by
  induction fuel with
  | zero =>
    intro n k ds _ _
    simp [Nat.toDigitsCore]
  | succ fuel ih =>
    intro n k ds hk hn
    simp only [Nat.toDigitsCore]
    by_cases h0 : n / 10 = 0
    · rw [if_pos h0, List.length_cons]
      omega
    · rw [if_neg h0]
      have hk2 : 2 ≤ k := by
        by_contra hlt
        have hk1 : k = 1 := by omega
        subst hk1
        omega
      have hdiv : n / 10 < 10 ^ (k - 1) := by
        have hpow : 10 ^ k = 10 ^ (k - 1) * 10 := by
          rw [← Nat.pow_succ]
          congr 1
          omega
        rw [hpow] at hn
        exact Nat.div_lt_of_lt_mul (by rw [Nat.mul_comm]; exact hn)
      have := ih (n / 10) (k - 1) (Nat.digitChar (n % 10) :: ds) (by omega) hdiv
      rw [List.length_cons] at this
      omega

/-- A number below `10 ^ k` prints with at most `k` digits. -/
theorem fmt_u_length_le (n k : Nat) (hk : 0 < k) (hn : n < 10 ^ k) :
    (fmt_u n).length ≤ k := by
  have h := toDigitsCore_length_le (n + 1) n k [] hk hn
  simpa [fmt_u, cstr, Nat.repr, Nat.toDigits, List.asString] using h

/-- A number below 1000 fills the field of `%3u` exactly. -/
theorem fmt_3u_length (n : Nat) (hn : n < 1000) : (fmt_3u n).length = 3 := by
  have h := fmt_u_length_le n 3 (by decide) (by omega)
  simp only [fmt_3u, List.length_append, List.length_replicate]
  omega

/-- A text that fits the buffer is not truncated. -/
theorem snprintf_of_fits (size : Nat) (text : List Nat) (h : text.length ≤ size - 1) :
    snprintf size text = text := by
  unfold snprintf
  exact List.take_of_length_le h

/-! ## C11: the countdown of the Running override -/

/-- A value in the range of `int` is its own 32-bit reading. -/
theorem to_int32_of_range (z : Int) (h1 : -2 ^ 31 ≤ z) (h2 : z < 2 ^ 31) : to_int32 z = z := by
  unfold to_int32
  split <;> omega

/-- At a tick rate of at least 2 the countdown is the truncated difference of
the countdown base and the whole seconds elapsed. -/
theorem remaining_seconds_eq (env : Env) (s : UiState) (now : Nat)
    (hz : 2 ≤ env.configTICK_RATE_HZ) (hbase : s.ui_attack_timeout < 256) :
    remaining_seconds env s now =
      s.ui_attack_timeout - tick_sub now s.ui_attack_start_tick / env.configTICK_RATE_HZ := by
  have ht : tick_sub now s.ui_attack_start_tick < 2 ^ 32 := by
    unfold tick_sub
    exact Nat.mod_lt _ (by decide)
  have he : tick_sub now s.ui_attack_start_tick / env.configTICK_RATE_HZ < 2 ^ 31 := by
    have h1 := Nat.div_mul_le_self (tick_sub now s.ui_attack_start_tick) env.configTICK_RATE_HZ
    have h2 := Nat.mul_le_mul_left
      (tick_sub now s.ui_attack_start_tick / env.configTICK_RATE_HZ) hz
    omega
  unfold remaining_seconds
  simp only
  generalize tick_sub now s.ui_attack_start_tick / env.configTICK_RATE_HZ = e at he ⊢
  rw [to_int32_of_range (e : Int) (by omega) (by omega),
    to_int32_of_range ((s.ui_attack_timeout : Int) - (e : Int)) (by omega) (by omega)]
  split <;> omega

/-- The tick difference of line 333 is the number of ticks that went by since
the dispatch, whatever the wrap of the 32-bit counter in between. -/
theorem tick_sub_of_elapsed (start d : Nat) (hstart : start < 2 ^ 32) (hd : d < 2 ^ 32) :
    tick_sub ((start + d) % 2 ^ 32) start = d := by
  unfold tick_sub
  omega

/-- C11, as stated, fails at a tick rate of one per second: with countdown base
30, dispatch tick 1 and current tick 0 (2^32 - 1 ticks later) the elapsed
seconds 4294967295 read as `int` are -1, so the number shown is 31, above the
dispatched timeout, and line 2 is "Left:  31s". -/
theorem countdown_above_base_at_one_hertz :
    (dispatched_at 1).ui_attack_timeout = 30
      ∧ remaining_seconds env_1hz (dispatched_at 1) 0 = 31
      ∧ ¬ remaining_seconds env_1hz (dispatched_at 1) 0 ≤ (dispatched_at 1).ui_attack_timeout
      ∧ (display_ui_iter env_1hz (dispatched_at 1) (idle (some attack_state_t.RUNNING) 0)).map
          (fun r => (r.2.view, r.2.line2))
        = some (View.running, cstr "Left:  31s") := by
  decide

/-- C11 (amended): in the Running override (flag set, state `RUNNING`), at a
tick rate of at least 2 per second, for every countdown base of `uint8_t` range,
every 32-bit dispatch tick and every number `d < 2^32` of ticks gone by since
(the current tick is `(start + d) mod 2^32`), the number shown is the base minus
the whole seconds `d / rate`, floored at zero (truncated subtraction) and so
never above the base, and line 2 is "Left: ", that number right-aligned in three
columns, and "s"; with base 30 and 10 seconds elapsed line 2 is exactly
"Left:  20s", as it is at rate 100 for the ticks (0, 1000) and, across the wrap
of the counter, (4294967000, 704). -/
theorem running_override_shows_remaining (env : Env) (s : UiState) (i : Inputs) (d : Nat)
    (hz : 2 ≤ env.configTICK_RATE_HZ) (hbase : s.ui_attack_timeout < 256)
    (hflag : s.ui_triggered_attack = true)
    (hst : i.attack_status = some attack_state_t.RUNNING)
    (hstart : s.ui_attack_start_tick < 2 ^ 32) (hd : d < 2 ^ 32)
    (hnow : i.now = (s.ui_attack_start_tick + d) % 2 ^ 32) :
    (∃ s' out, display_ui_iter env s i = some (s', out) ∧ out.view = View.running
        ∧ out.line2 = cstr "Left: "
            ++ fmt_3u (s.ui_attack_timeout - d / env.configTICK_RATE_HZ) ++ cstr "s"
        ∧ (s.ui_attack_timeout = 30 → d / env.configTICK_RATE_HZ = 10 →
            out.line2 = cstr "Left:  20s"))
      ∧ remaining_seconds env s i.now = s.ui_attack_timeout - d / env.configTICK_RATE_HZ
      ∧ remaining_seconds env s i.now ≤ s.ui_attack_timeout
      ∧ (display_ui_iter env3 (dispatched_at 0) (idle (some attack_state_t.RUNNING) 1000)).map
          (fun r => (r.2.view, r.2.line2))
        = some (View.running, cstr "Left:  20s")
      ∧ (display_ui_iter env3 (dispatched_at 4294967000)
            (idle (some attack_state_t.RUNNING) 704)).map
          (fun r => (r.2.view, r.2.line2))
        = some (View.running, cstr "Left:  20s") := by
  have hrem : remaining_seconds env s i.now
      = s.ui_attack_timeout - d / env.configTICK_RATE_HZ := by
    rw [remaining_seconds_eq env s i.now hz hbase, hnow,
      tick_sub_of_elapsed s.ui_attack_start_tick d hstart hd]
  have hle : remaining_seconds env s i.now ≤ s.ui_attack_timeout := by
    rw [hrem]
    exact Nat.sub_le _ _
  have hiter := iter_of_override env s i attack_state_t.RUNNING hflag hst
  rw [if_pos rfl] at hiter
  have hline : (running_output env s i.now).line2
      = cstr "Left: " ++ fmt_3u (s.ui_attack_timeout - d / env.configTICK_RATE_HZ)
          ++ cstr "s" := by
    show snprintf 33 _ = _
    rw [hrem]
    apply snprintf_of_fits
    have h3 := fmt_3u_length (s.ui_attack_timeout - d / env.configTICK_RATE_HZ) (by omega)
    simp only [List.length_append, h3]
    decide
  refine ⟨⟨_, _, hiter, rfl, hline, ?_⟩, hrem, hle, by decide, by decide⟩
  intro h30 h10
  rw [hline, h30, h10]
  decide

theorem running_override_shows_remaining_witness :
    (2 ≤ env3.configTICK_RATE_HZ ∧ (dispatched_at 4294967000).ui_attack_timeout < 256
        ∧ (idle (some attack_state_t.RUNNING) 704).now = (4294967000 + 1000) % 2 ^ 32)
      ∧ (∃ s' out, display_ui_iter env3 (dispatched_at 4294967000)
            (idle (some attack_state_t.RUNNING) 704) = some (s', out)
          ∧ out.view = View.running
          ∧ out.line2 = cstr "Left:  20s")
      ∧ remaining_seconds env3 (dispatched_at 4294967000) 704 = 30 - 1000 / 100
      ∧ remaining_seconds env3 (dispatched_at 4294967000) 704 ≤ 30 :=
  ⟨⟨by decide, by decide, by decide⟩,
   match (running_override_shows_remaining env3 (dispatched_at 4294967000)
            (idle (some attack_state_t.RUNNING) 704) 1000 (by decide) (by decide) rfl rfl
            (by decide) (by decide) (by decide)).1 with
   | ⟨s', out, h1, h2, _, h4⟩ => ⟨s', out, h1, h2, h4 rfl (by decide)⟩,
   (running_override_shows_remaining env3 (dispatched_at 4294967000)
      (idle (some attack_state_t.RUNNING) 704) 1000 (by decide) (by decide) rfl rfl
      (by decide) (by decide) (by decide)).2.1,
   (running_override_shows_remaining env3 (dispatched_at 4294967000)
      (idle (some attack_state_t.RUNNING) 704) 1000 (by decide) (by decide) rfl rfl
      (by decide) (by decide) (by decide)).2.2.1⟩

/-! ## C12: characters without a glyph -/

/-- C12: for every character value outside 32..127 (a negative value of a
signed `char` included), every framebuffer and every `(x, y)`, `draw_char`
returns the same framebuffer and the same advance as for `?` (63). -/
theorem draw_char_unprintable_is_question_mark (fb : Framebuffer) (x y c : Int)
    (hc : c < 32 ∨ 127 < c) :
    draw_char fb x y c = draw_char fb x y 63 := by
  have hg : glyph c = glyph 63 := by
    unfold glyph
    rw [if_pos (by omega), if_neg (by omega)]
  rw [draw_char_eq, draw_char_eq, hg]

theorem draw_char_unprintable_is_question_mark_witness :
    draw_char (fun _ => 255) 10 16 200 = draw_char (fun _ => 255) 10 16 63 :=
  draw_char_unprintable_is_question_mark (fun _ => 255) 10 16 200 (by decide)

/-! ## C13: rows that are not page-aligned -/

/-- C13: for every framebuffer, every `x`, every text (NULL included) and every
`y` that is not a multiple of 8, negative or not, `display_text` returns the
framebuffer unchanged. -/
theorem display_text_unaligned_is_noop (fb : Framebuffer) (x y : Int)
    (text : Option (List Int)) (hy : ¬ (8 : Int) ∣ y) :
    display_text fb x y text = fb := by
  cases text with
  | none => rfl
  | some t =>
    have hmod : y.tmod 8 ≠ 0 := fun h => hy (Int.dvd_of_tmod_eq_zero h)
    simp only [display_text]
    rw [if_pos hmod]

theorem display_text_unaligned_is_noop_witness :
    display_text (fun k => k % 256) 0 (-3) (some [65, 66, 67]) = (fun k => k % 256) :=
  display_text_unaligned_is_noop (fun k => k % 256) 0 (-3) (some [65, 66, 67]) (by decide)

/-! ## C15: glyphs off the display -/

/-- C15: for every character, every framebuffer and every `(x, y)` with `y` a
multiple of 8 and `x < 0`, `x >= 128`, `y < 0` or `y >= 64`, `draw_char` returns
the framebuffer unchanged and the advance 0. -/
theorem draw_char_off_display_is_noop (fb : Framebuffer) (x y c : Int)
    (hy : (8 : Int) ∣ y) (hout : x < 0 ∨ 128 ≤ x ∨ y < 0 ∨ 64 ≤ y) :
    draw_char fb x y c = (fb, 0) := by
  obtain ⟨m, rfl⟩ := hy
  have hpage : ((8 : Int) * m).tdiv 8 = m := by
    rw [Int.tdiv_eq_ediv_of_dvd (Dvd.intro m rfl)]
    omega
  rw [draw_char_eq, hpage]
  unfold DISPLAY_PAGES DISPLAY_HEIGHT DISPLAY_WIDTH
  by_cases hm : m < 0 ∨ m ≥ 64 / 8
  · rw [if_pos hm]
  · rw [if_neg hm, if_pos]
    omega

theorem draw_char_off_display_is_noop_witness :
    draw_char (fun _ => 170) 128 8 65 = ((fun _ => 170), 0) :=
  draw_char_off_display_is_noop (fun _ => 170) 128 8 65 (by decide) (by decide)

/-! ## C16: a print does not depend on what was shown before -/

/-- C16: for every pair of lines and every two prior framebuffers,
`display_print_lines` ends in the same framebuffer and issues the same
transactions; printing the same lines again on the result gives the same
framebuffer once more. -/
theorem display_print_lines_forgets_prior (fb1 fb2 : Framebuffer)
    (a b : Option (List Int)) :
    display_print_lines fb1 a b = display_print_lines fb2 a b
      ∧ (display_print_lines (display_print_lines fb1 a b).1 a b).1
          = (display_print_lines fb1 a b).1 :=
  ⟨rfl, rfl⟩

/-! ## C14: layout of a line of text -/

/-- A string of printable codes has no NUL in it. -/
theorem c_string_of_printable (s : List Int) (hs : ∀ c ∈ s, 32 ≤ c ∧ c ≤ 127) :
    c_string s = s := by
  unfold c_string
  rw [List.takeWhile_eq_self_iff]
  intro c hc
  have := hs c hc
  simp only [bne_iff_ne, ne_eq]
  omega

/-- The glyph row of a printable code is its row of the table. -/
theorem glyph_of_printable (c : Int) (hc : 32 ≤ c ∧ c ≤ 127) :
    glyph c = font5x7.getD (c - 32).toNat [] := by
  unfold glyph
  rw [if_neg (by omega)]

/-- `display_text` on an aligned row of the display, from a column that is not
negative, byte by byte. -/
theorem display_text_apply (fb : Framebuffer) (p x : Nat) (hp : p < 8) (t : List Int)
    (k : Nat) :
    display_text fb (x : Int) (8 * (p : Int)) (some t) k =
      if p * 128 + x ≤ k ∧ k < p * 128 + 128
          ∧ (k - (p * 128 + x)) / 6 < (c_string t).length then
        glyph_cell ((c_string t).getD ((k - (p * 128 + x)) / 6) 0) ((k - (p * 128 + x)) % 6)
      else fb k := by
  have hmod : ¬ ((8 : Int) * (p : Int)).tmod 8 ≠ 0 := by
    rw [ne_eq, not_not]
    exact Int.tmod_eq_zero_of_dvd (Dvd.intro _ rfl)
  simp only [display_text]
  rw [if_neg hmod]
  exact display_text_loop_apply p hp t x fb k

/-- The same from column 0. -/
theorem display_text_apply_zero (fb : Framebuffer) (p : Nat) (hp : p < 8) (t : List Int)
    (k : Nat) :
    display_text fb 0 (8 * (p : Int)) (some t) k =
      if p * 128 + 0 ≤ k ∧ k < p * 128 + 128
          ∧ (k - (p * 128 + 0)) / 6 < (c_string t).length then
        glyph_cell ((c_string t).getD ((k - (p * 128 + 0)) / 6) 0) ((k - (p * 128 + 0)) % 6)
      else fb k :=
  display_text_apply fb p 0 hp t k

/-- Reading a list through a prefix that is long enough. -/
theorem getD_take_of_lt (l : List Int) (n i : Nat) (h : i < n) :
    (l.take n).getD i 0 = l.getD i 0 := by
  simp [List.getD_eq_getElem?_getD, List.getElem?_take, h]

/-- C14: for every framebuffer, every page-aligned `y` with `0 <= y < 64` and
every string of codes in 32..127, `display_text(0, y, s)` lays the string out
from column 0 of page `y/8` with an advance of 6: for each `i < min(len s, 21)`
the bytes at columns `6i .. 6i+4` are the five bytes of `font5x7[s[i]-32]` and
column `6i+5` is 0; a 22nd character leaves only its first two glyph bytes, at
columns 126 and 127; characters after the 22nd change nothing (the result is
that of the first 22 characters). -/
theorem display_text_layout (fb : Framebuffer) (y : Int) (s : List Int)
    (h0 : 0 ≤ y) (h64 : y < 64) (h8 : (8 : Int) ∣ y)
    (hs : ∀ c ∈ s, 32 ≤ c ∧ c ≤ 127) :
    (∀ i, i < min s.length 21 →
        (∀ col, col < 5 →
          display_text fb 0 y (some s) ((y / 8).toNat * 128 + 6 * i + col)
            = (font5x7.getD (s.getD i 0 - 32).toNat []).getD col 0)
        ∧ display_text fb 0 y (some s) ((y / 8).toNat * 128 + 6 * i + 5) = 0)
    ∧ (21 < s.length →
        display_text fb 0 y (some s) ((y / 8).toNat * 128 + 126)
            = (font5x7.getD (s.getD 21 0 - 32).toNat []).getD 0 0
        ∧ display_text fb 0 y (some s) ((y / 8).toNat * 128 + 127)
            = (font5x7.getD (s.getD 21 0 - 32).toNat []).getD 1 0)
    ∧ display_text fb 0 y (some s) = display_text fb 0 y (some (s.take 22)) := by
  obtain ⟨m, rfl⟩ := h8
  obtain ⟨p, rfl⟩ : ∃ p : Nat, m = (p : Int) := ⟨m.toNat, by omega⟩
  have hp : p < 8 := by omega
  have hpage : ((8 : Int) * (p : Int) / 8).toNat = p := by omega
  have hcs := c_string_of_printable s hs
  have hmem : ∀ i, i < s.length → 32 ≤ s.getD i 0 ∧ s.getD i 0 ≤ 127 := by
    intro i hi
    rw [List.getD_eq_getElem s 0 hi]
    exact hs _ (List.getElem_mem hi)
  rw [hpage]
  refine ⟨?_, ?_, ?_⟩
  · intro i hi
    have hi21 : i < 21 := lt_of_lt_of_le hi (min_le_right _ _)
    have hilen : i < s.length := lt_of_lt_of_le hi (min_le_left _ _)
    refine ⟨?_, ?_⟩
    · intro col hcol
      have hq : (p * 128 + 6 * i + col - (p * 128 + 0)) / 6 = i := by omega
      have hr : (p * 128 + 6 * i + col - (p * 128 + 0)) % 6 = col := by omega
      rw [display_text_apply_zero fb p hp s, hcs, if_pos ⟨by omega, by omega, by omega⟩, hq, hr]
      unfold glyph_cell
      rw [if_pos hcol, glyph_of_printable _ (hmem i hilen)]
    · have hq : (p * 128 + 6 * i + 5 - (p * 128 + 0)) / 6 = i := by omega
      have hr : (p * 128 + 6 * i + 5 - (p * 128 + 0)) % 6 = 5 := by omega
      rw [display_text_apply_zero fb p hp s, hcs, if_pos ⟨by omega, by omega, by omega⟩, hq, hr]
      rfl
  · intro hlen
    refine ⟨?_, ?_⟩
    · have hq : (p * 128 + 126 - (p * 128 + 0)) / 6 = 21 := by omega
      have hr : (p * 128 + 126 - (p * 128 + 0)) % 6 = 0 := by omega
      rw [display_text_apply_zero fb p hp s, hcs, if_pos ⟨by omega, by omega, by omega⟩, hq, hr]
      unfold glyph_cell
      rw [if_pos (by decide), glyph_of_printable _ (hmem 21 hlen)]
    · have hq : (p * 128 + 127 - (p * 128 + 0)) / 6 = 21 := by omega
      have hr : (p * 128 + 127 - (p * 128 + 0)) % 6 = 1 := by omega
      rw [display_text_apply_zero fb p hp s, hcs, if_pos ⟨by omega, by omega, by omega⟩, hq, hr]
      unfold glyph_cell
      rw [if_pos (by decide), glyph_of_printable _ (hmem 21 hlen)]
  · funext k
    have hs22 : ∀ c ∈ s.take 22, 32 ≤ c ∧ c ≤ 127 :=
      fun c hc => hs c (List.mem_of_mem_take hc)
    rw [display_text_apply_zero fb p hp s, display_text_apply_zero fb p hp (s.take 22), hcs,
      c_string_of_printable _ hs22, List.length_take]
    by_cases hin : p * 128 + 0 ≤ k ∧ k < p * 128 + 128
    · have hq : (k - (p * 128 + 0)) / 6 < 22 := by omega
      by_cases hlen : (k - (p * 128 + 0)) / 6 < s.length
      · rw [if_pos ⟨hin.1, hin.2, hlen⟩, if_pos ⟨hin.1, hin.2, lt_min hq hlen⟩,
          getD_take_of_lt s 22 _ hq]
      · rw [if_neg (fun h => hlen h.2.2),
          if_neg (fun h => hlen (lt_of_lt_of_le h.2.2 (min_le_right _ _)))]
    · rw [if_neg (fun h => hin ⟨h.1, h.2.1⟩), if_neg (fun h => hin ⟨h.1, h.2.1⟩)]

theorem display_text_layout_witness :
    (∀ i, i < min [72, 105].length 21 →
        (∀ col, col < 5 →
          display_text (fun _ => 255) 0 32 (some [72, 105]) ((32 / 8 : Int).toNat * 128 + 6 * i + col)
            = (font5x7.getD (([72, 105] : List Int).getD i 0 - 32).toNat []).getD col 0)
        ∧ display_text (fun _ => 255) 0 32 (some [72, 105])
            ((32 / 8 : Int).toNat * 128 + 6 * i + 5) = 0)
    ∧ (21 < [72, 105].length →
        display_text (fun _ => 255) 0 32 (some [72, 105]) ((32 / 8 : Int).toNat * 128 + 126)
            = (font5x7.getD (([72, 105] : List Int).getD 21 0 - 32).toNat []).getD 0 0
        ∧ display_text (fun _ => 255) 0 32 (some [72, 105]) ((32 / 8 : Int).toNat * 128 + 127)
            = (font5x7.getD (([72, 105] : List Int).getD 21 0 - 32).toNat []).getD 1 0)
    ∧ display_text (fun _ => 255) 0 32 (some [72, 105])
        = display_text (fun _ => 255) 0 32 (some (([72, 105] : List Int).take 22)) :=
  display_text_layout (fun _ => 255) 32 [72, 105] (by decide) (by decide) (by decide)
    (by decide)

/-! ## C17: what a print leaves in the framebuffer -/

/-- The framebuffer after `display_print_lines`, byte by byte: the cells of
line 1 on page 0, the cells of line 2 on page 4, zero everywhere else. -/
theorem display_print_lines_apply (fb : Framebuffer) (l1 l2 : Option (List Int)) (k : Nat) :
    (display_print_lines fb l1 l2).1 k =
      if 4 * 128 + 0 ≤ k ∧ k < 4 * 128 + 128
          ∧ (k - (4 * 128 + 0)) / 6 < (c_string (l2.getD [])).length then
        glyph_cell ((c_string (l2.getD [])).getD ((k - (4 * 128 + 0)) / 6) 0)
          ((k - (4 * 128 + 0)) % 6)
      else if 0 * 128 + 0 ≤ k ∧ k < 0 * 128 + 128
          ∧ (k - (0 * 128 + 0)) / 6 < (c_string (l1.getD [])).length then
        glyph_cell ((c_string (l1.getD [])).getD ((k - (0 * 128 + 0)) / 6) 0)
          ((k - (0 * 128 + 0)) % 6)
      else 0 := by
  have h32 : (32 : Int) = 8 * ((4 : Nat) : Int) := by decide
  have h0 : (0 : Int) = 8 * ((0 : Nat) : Int) := by decide
  show display_text (display_text (display_clear fb) 0 0 (some (l1.getD []))) 0 32
      (some (l2.getD [])) k = _
  rw [h32, display_text_apply_zero _ 4 (by decide)]
  have hinner : display_text (display_clear fb) 0 0 (some (l1.getD [])) k =
      if 0 * 128 + 0 ≤ k ∧ k < 0 * 128 + 128
          ∧ (k - (0 * 128 + 0)) / 6 < (c_string (l1.getD [])).length then
        glyph_cell ((c_string (l1.getD [])).getD ((k - (0 * 128 + 0)) / 6) 0)
          ((k - (0 * 128 + 0)) % 6)
      else 0 := by
    have := display_text_apply_zero (display_clear fb) 0 (by decide) (l1.getD []) k
    rw [← h0] at this
    exact this
  rw [hinner]

/-- C17: for every pair of lines, after `display_print_lines(l1, l2)` page 0
holds what `display_text(0, 0, l1)` draws on a zeroed buffer (byte `j` is the
glyph cell of character `j / 6` at offset `j % 6` where the string has such a
character, 0 otherwise), page 4 holds what `display_text(0, 32, l2)` draws on a
zeroed buffer, every byte of pages 1, 2, 3, 5, 6 and 7 is 0, and a NULL line
gives the same result as the empty string. -/
theorem display_print_lines_pages (fb : Framebuffer) (l1 l2 : Option (List Int)) :
    page_bytes (display_print_lines fb l1 l2).1 0
        = page_bytes (display_text (fun _ => 0) 0 0 (some (l1.getD []))) 0
      ∧ page_bytes (display_print_lines fb l1 l2).1 4
        = page_bytes (display_text (fun _ => 0) 0 32 (some (l2.getD []))) 4
      ∧ (∀ j, j < 128 → (display_print_lines fb l1 l2).1 j =
          if j / 6 < (c_string (l1.getD [])).length then
            glyph_cell ((c_string (l1.getD [])).getD (j / 6) 0) (j % 6)
          else 0)
      ∧ (∀ p, p < 8 → p ≠ 0 → p ≠ 4 → ∀ j, j < 128 →
          (display_print_lines fb l1 l2).1 (p * 128 + j) = 0)
      ∧ display_print_lines fb none l2 = display_print_lines fb (some []) l2
      ∧ display_print_lines fb l1 none = display_print_lines fb l1 (some []) := by
  have h32 : (32 : Int) = 8 * ((4 : Nat) : Int) := by decide
  have h0 : (0 : Int) = 8 * ((0 : Nat) : Int) := by decide
  refine ⟨?_, ?_, ?_, ?_, rfl, rfl⟩
  · unfold page_bytes
    apply List.map_congr_left
    intro j hj
    have hj' : j < 128 := List.mem_range.1 hj
    have hz := display_text_apply_zero (fun _ => 0) 0 (by decide) (l1.getD []) (0 * 128 + j)
    rw [← h0] at hz
    rw [display_print_lines_apply, hz, if_neg (by omega)]
  · unfold page_bytes
    apply List.map_congr_left
    intro j hj
    have hj' : j < 128 := List.mem_range.1 hj
    have hz := display_text_apply_zero (fun _ => 0) 4 (by decide) (l2.getD []) (4 * 128 + j)
    rw [← h32] at hz
    rw [display_print_lines_apply, hz]
    by_cases hc : 4 * 128 + 0 ≤ 4 * 128 + j ∧ 4 * 128 + j < 4 * 128 + 128
        ∧ (4 * 128 + j - (4 * 128 + 0)) / 6 < (c_string (l2.getD [])).length
    · rw [if_pos hc, if_pos hc]
    · rw [if_neg hc, if_neg hc, if_neg (by omega)]
  · intro j hj
    rw [display_print_lines_apply, if_neg (by omega)]
    by_cases hc : j / 6 < (c_string (l1.getD [])).length
    · rw [if_pos ⟨by omega, by omega, by simpa using hc⟩, if_pos hc]
      rfl
    · rw [if_neg (fun h => hc (by simpa using h.2.2)), if_neg hc]
  · intro p hp hp0 hp4 j hj
    rw [display_print_lines_apply, if_neg (by omega), if_neg (by omega)]

theorem display_print_lines_pages_witness :
    page_bytes (display_print_lines (fun _ => 255) (some [65]) none).1 0
        = page_bytes (display_text (fun _ => 0) 0 0 (some ((some [65] : Option (List Int)).getD []))) 0
      ∧ page_bytes (display_print_lines (fun _ => 255) (some [65]) none).1 4
        = page_bytes (display_text (fun _ => 0) 0 32 (some ((none : Option (List Int)).getD []))) 4
      ∧ (∀ j, j < 128 → (display_print_lines (fun _ => 255) (some [65]) none).1 j =
          if j / 6 < (c_string ((some [65] : Option (List Int)).getD [])).length then
            glyph_cell ((c_string ((some [65] : Option (List Int)).getD [])).getD (j / 6) 0) (j % 6)
          else 0)
      ∧ (∀ p, p < 8 → p ≠ 0 → p ≠ 4 → ∀ j, j < 128 →
          (display_print_lines (fun _ => 255) (some [65]) none).1 (p * 128 + j) = 0)
      ∧ display_print_lines (fun _ => 255) none none
          = display_print_lines (fun _ => 255) (some []) none
      ∧ display_print_lines (fun _ => 255) (some [65]) none
          = display_print_lines (fun _ => 255) (some [65]) (some []) :=
  display_print_lines_pages (fun _ => 255) (some [65]) none

/-! ## C18: the flush -/

/-- The pages of a framebuffer, one after the other, are its first `n * 128`
bytes. -/
theorem page_bytes_concat (fb : Framebuffer) (n : Nat) :
    (List.range n).flatMap (page_bytes fb) = (List.range (n * 128)).map fb := by
  induction n with
  | zero => rfl
  | succ n ih =>
    have hsplit : (n + 1) * 128 = n * 128 + 128 := by omega
    rw [List.range_succ, List.flatMap_append, ih, hsplit, List.range_add, List.map_append]
    simp [page_bytes, List.flatMap]

/-- C18: for every framebuffer, `display_update` issues sixteen transactions,
for the pages 0 to 7 in ascending order a command transaction followed at once
by a data transaction.  The command transaction carries the address byte, the
control byte 0x00, the page address `0xB0 | p` (176 + p) and the column reset
bytes 0x00 and 0x10; the data transaction carries the address byte, the control
byte 0x40 and the 128 bytes `display_buffer[128 p .. 128 p + 127]`.  The payloads
one after the other are the 1024 bytes of the framebuffer, and the framebuffer
is returned as it was. -/
theorem display_update_transactions (fb : Framebuffer) :
    (display_update fb).1 = fb
      ∧ (display_update fb).2 =
          [page_command 0, page_data fb 0, page_command 1, page_data fb 1,
           page_command 2, page_data fb 2, page_command 3, page_data fb 3,
           page_command 4, page_data fb 4, page_command 5, page_data fb 5,
           page_command 6, page_data fb 6, page_command 7, page_data fb 7]
      ∧ (∀ p, (page_command p).bytes = [0x78, 0x00, 0xB0 ||| p, 0x00, 0x10])
      ∧ (∀ p, p < 8 → 0xB0 ||| p = 176 + p)
      ∧ (∀ p, (page_data fb p).bytes = [0x78, 0x40] ++ page_bytes fb p
            ∧ (page_bytes fb p).length = 128
            ∧ ∀ j, j < 128 → (page_bytes fb p).getD j 0 = fb (128 * p + j))
      ∧ (List.range 8).flatMap (fun p => (page_data fb p).bytes.drop 2)
          = (List.range 1024).map fb := by
  refine ⟨rfl, rfl, fun p => rfl, ?_, ?_, ?_⟩
  · intro p hp
    interval_cases p <;> rfl
  · intro p
    refine ⟨rfl, by simp [page_bytes], ?_⟩
    intro j hj
    simp [page_bytes, List.getD_eq_getElem?_getD, hj, Nat.mul_comm]
  · exact page_bytes_concat fb 8

theorem display_update_transactions_witness :
    (display_update (fun k => k % 7)).1 = (fun k => k % 7)
      ∧ (display_update (fun k => k % 7)).2 =
          [page_command 0, page_data (fun k => k % 7) 0, page_command 1,
           page_data (fun k => k % 7) 1, page_command 2, page_data (fun k => k % 7) 2,
           page_command 3, page_data (fun k => k % 7) 3, page_command 4,
           page_data (fun k => k % 7) 4, page_command 5, page_data (fun k => k % 7) 5,
           page_command 6, page_data (fun k => k % 7) 6, page_command 7,
           page_data (fun k => k % 7) 7]
      ∧ (∀ p, (page_command p).bytes = [0x78, 0x00, 0xB0 ||| p, 0x00, 0x10])
      ∧ (∀ p, p < 8 → 0xB0 ||| p = 176 + p)
      ∧ (∀ p, (page_data (fun k => k % 7) p).bytes
              = [0x78, 0x40] ++ page_bytes (fun k => k % 7) p
            ∧ (page_bytes (fun k => k % 7) p).length = 128
            ∧ ∀ j, j < 128 → (page_bytes (fun k => k % 7) p).getD j 0
                = (fun k => k % 7) (128 * p + j))
      ∧ (List.range 8).flatMap (fun p => (page_data (fun k => k % 7) p).bytes.drop 2)
          = (List.range 1024).map (fun k => k % 7) :=
  display_update_transactions (fun k => k % 7)

/-! ## C19: the floor of the timeout -/

/-- C19: on the timeout screen, for every value `t` of `timeout`, a pass in
which only Up is pressed leaves `t - 5` when `t > 5` and `t` otherwise, and
changes nothing else; from the initial state, three Select presses and five Up
presses give 5, and a sixth Up press leaves 5. -/
theorem timeout_up_stops_at_five (env : Env) (s : UiState) (st : Option attack_state_t)
    (now : Nat) (hmenu : s.menu = MENU_TIMEOUT) (hflag : s.ui_triggered_attack = false) :
    (display_ui_iter env s (pressUp st now)).map Prod.fst =
        some { s with timeout := if 5 < s.timeout then s.timeout - 5 else s.timeout }
      ∧ (run env3 UiState.initial
            (List.replicate 3 (pressSelect none 0) ++ List.replicate 5 (pressUp none 0))).map
          (fun r => (r.1.menu, r.1.timeout)) = some (MENU_TIMEOUT, 5)
      ∧ (run env3 UiState.initial
            (List.replicate 3 (pressSelect none 0) ++ List.replicate 6 (pressUp none 0))).map
          (fun r => (r.1.menu, r.1.timeout)) = some (MENU_TIMEOUT, 5) := by
  refine ⟨?_, by decide, by decide⟩
  rw [iter_of_config env s _ (Or.inl hflag), config_pass_pressUp]
  obtain ⟨m, a, ty, me, tmo, tk, ba, fl⟩ := s
  simp only at hmenu
  subst hmenu
  by_cases h5 : 5 < tmo <;>
    simp [on_button_up, MENU_TIMEOUT, MENU_AP, MENU_TYPE, MENU_METHOD, h5]

theorem timeout_up_stops_at_five_witness :
    (display_ui_iter env3 { UiState.initial with menu := MENU_TIMEOUT, timeout := 5 }
          (pressUp none 0)).map Prod.fst =
        some { UiState.initial with menu := MENU_TIMEOUT, timeout := 5 }
      ∧ (run env3 UiState.initial
            (List.replicate 3 (pressSelect none 0) ++ List.replicate 5 (pressUp none 0))).map
          (fun r => (r.1.menu, r.1.timeout)) = some (MENU_TIMEOUT, 5)
      ∧ (run env3 UiState.initial
            (List.replicate 3 (pressSelect none 0) ++ List.replicate 6 (pressUp none 0))).map
          (fun r => (r.1.menu, r.1.timeout)) = some (MENU_TIMEOUT, 5) :=
  timeout_up_stops_at_five env3 { UiState.initial with menu := MENU_TIMEOUT, timeout := 5 }
    none 0 rfl rfl

/-! ## C20: the text of the SelectAP screen -/

/-- A configuration pass that returns gives `display_print_lines` the two lines
of `render_config`. -/
theorem config_pass_lines (env : Env) (s : UiState) (i : Inputs) (s' : UiState)
    (out : Output) (h : config_pass env s i = some (s', out)) :
    out.line1 = (render_config env s).1 ∧ out.line2 = (render_config env s).2 := by
  cases hmid : i.button_middle with
  | false =>
    rw [config_pass_no_select env s i hmid] at h
    simp only [Option.some.injEq, Prod.mk.injEq] at h
    rw [← h.2]
    exact ⟨rfl, rfl⟩
  | true =>
    rw [config_pass_select env s i hmid] at h
    cases hm : on_button_middle (after_up_down env s i) i with
    | none => simp [hm] at h
    | some r =>
      simp only [hm, Option.map_some', Option.some.injEq, Prod.mk.injEq] at h
      rw [← h.2]
      exact ⟨rfl, rfl⟩

/-- The bytes before the first NUL do not depend on what follows a NUL. -/
theorem takeWhile_append_nul (a rest : List Nat) :
    (a ++ 0 :: rest).takeWhile (fun b => b != 0) = a.takeWhile (fun b => b != 0) := by
  induction a with
  | nil => simp [List.takeWhile_cons]
  | cons x xs ih =>
    by_cases hx : x = 0
    · subst hx
      simp [List.takeWhile_cons]
    · simp only [List.cons_append, List.takeWhile_cons]
      have : (x != 0) = true := by simpa using hx
      simp only [this, if_true]
      rw [ih]

/-- The bounded copy of the SSID printed with `%.*s` is the part of its first
32 bytes that precedes the first NUL. -/
theorem ssid_line (ssid : List Nat) :
    snprintf 33 (fmt_prec_s 32 (ssid_copy ssid))
      = (ssid.take 32).takeWhile (fun b => b != 0) := by
  have hpad : ssid_copy ssid
      = ssid.take 32 ++ 0 :: List.replicate (32 - ssid.length) 0 := by
    unfold ssid_copy
    rw [List.append_assoc]
    congr 1
    rw [← List.replicate_succ, List.replicate_succ']
  have hlen : ((ssid.take 32).takeWhile (fun b => b != 0)).length ≤ 32 :=
    le_trans (List.takeWhile_sublist _).length_le (List.length_take_le 32 ssid)
  unfold fmt_prec_s
  rw [hpad, takeWhile_append_nul, List.take_of_length_le hlen]
  exact snprintf_of_fits 33 _ hlen

/-- Without access points Down leaves the index alone. -/
theorem on_button_down_no_aps (env : Env) (s : UiState) (h0 : env.ap_count = 0) :
    (on_button_down env s).selected_ap = s.selected_ap := by
  unfold on_button_down
  rw [if_neg (by omega)]
  repeat' split
  all_goals rfl

/-- Without access points the index stays 0. -/
theorem selected_ap_zero_of_no_aps (env : Env) (h0 : env.ap_count = 0) :
    ∀ s, Reachable env s → s.selected_ap = 0 := by
  apply reachable_induction env (fun s => s.selected_ap = 0)
  · rfl
  · intro s hs
    have := on_button_up_selected_ap_le env s
    show (on_button_up env s).selected_ap = 0
    omega
  · intro s hs
    show (on_button_down env s).selected_ap = 0
    rw [on_button_down_no_aps env s h0]
    exact hs
  · intro s i s' reqs hs hm
    show s'.selected_ap = 0
    rw [(on_button_middle_selection s i s' reqs hm).1]
    exact hs
  · intro s hs
    exact hs

/-- With access points the index stays below the count. -/
theorem selected_ap_lt_of_aps (env : Env) (hcount : 0 < env.ap_count) :
    ∀ s, Reachable env s → s.selected_ap < env.ap_count := by
  apply reachable_induction env (fun s => s.selected_ap < env.ap_count)
  · exact hcount
  · intro s hs
    exact lt_of_le_of_lt (on_button_up_selected_ap_le env s) hs
  · intro s hs
    exact on_button_down_selected_ap_lt env s hs
  · intro s i s' reqs hs hm
    show s'.selected_ap < env.ap_count
    rw [(on_button_middle_selection s i s' reqs hm).1]
    exact hs
  · intro s hs
    exact hs

/-- C20: in every reachable state, a pass that shows the SelectAP screen
returns and renders, when `ap_count = 0`, exactly "AP 1/0" and "No APs found",
and when `ap_count > 0` (an `unsigned`, below 2^32) line 1 "AP ", the decimal
`selected_ap + 1`, "/", the decimal `ap_count`, and as line 2 the bytes of the
selected record's SSID that precede the first NUL among its first 32 bytes. -/
theorem select_ap_screen_text (env : Env) (s : UiState) (i : Inputs)
    (hcount : env.ap_count < 2 ^ 32) (hs : Reachable env s) (hmenu : s.menu = MENU_AP)
    (hcfg : s.ui_triggered_attack = false ∨ i.attack_status = none) :
    ∃ s' out, display_ui_iter env s i = some (s', out)
      ∧ out.view = View.config MENU_AP
      ∧ (env.ap_count = 0 →
          out.line1 = cstr "AP 1/0" ∧ out.line2 = cstr "No APs found")
      ∧ (0 < env.ap_count →
          out.line1 = cstr "AP " ++ fmt_u (s.selected_ap + 1) ++ cstr "/" ++ fmt_u env.ap_count
          ∧ out.line2 = ((env.ap_ssid s.selected_ap).take 32).takeWhile (fun b => b != 0)) := by
  rw [iter_of_config env s i hcfg]
  cases hc : config_pass env s i with
  | none =>
    have := ((config_pass_eq_none_iff env s i).1 hc).1
    rw [hmenu] at this
    exact absurd this (by decide)
  | some r =>
    obtain ⟨s', out⟩ := r
    obtain ⟨h1, h2⟩ := config_pass_lines env s i s' out hc
    have hview := (config_pass_result env s i s' out hc).1
    rw [hmenu] at hview
    have hr : render_config env s =
        (snprintf 33 (cstr "AP " ++ fmt_u (s.selected_ap + 1) ++ cstr "/" ++ fmt_u env.ap_count),
         if 0 < env.ap_count then
           snprintf 33 (fmt_prec_s 32 (ssid_copy (env.ap_ssid s.selected_ap)))
         else snprintf 33 (cstr "No APs found")) := by
      simp only [render_config, hmenu, MENU_AP]
    rw [hr] at h1 h2
    refine ⟨s', out, rfl, hview, ?_, ?_⟩
    · intro h0
      have hap := selected_ap_zero_of_no_aps env h0 s hs
      have hne : ¬ 0 < env.ap_count := by omega
      rw [h1, h2, hap, if_neg hne, h0]
      exact ⟨by decide, by decide⟩
    · intro hpos
      have hap := selected_ap_lt_of_aps env hpos s hs
      rw [h1, h2, if_pos hpos, ssid_line]
      refine ⟨?_, rfl⟩
      apply snprintf_of_fits
      have hd1 := fmt_u_length_le (s.selected_ap + 1) 10 (by decide) (by omega)
      have hd2 := fmt_u_length_le env.ap_count 10 (by decide) (by omega)
      have hc1 : (cstr "AP ").length = 3 := by decide
      have hc2 : (cstr "/").length = 1 := by decide
      simp only [List.length_append, hc1, hc2]
      omega

theorem select_ap_screen_text_witness :
    ∃ s' out, display_ui_iter env3 UiState.initial (pressDown none 0) = some (s', out)
      ∧ out.view = View.config MENU_AP
      ∧ (env3.ap_count = 0 →
          out.line1 = cstr "AP 1/0" ∧ out.line2 = cstr "No APs found")
      ∧ (0 < env3.ap_count →
          out.line1 = cstr "AP " ++ fmt_u (UiState.initial.selected_ap + 1) ++ cstr "/"
              ++ fmt_u env3.ap_count
          ∧ out.line2 = ((env3.ap_ssid UiState.initial.selected_ap).take 32).takeWhile
              (fun b => b != 0)) :=
  select_ap_screen_text env3 UiState.initial (pressDown none 0) (by decide) Reachable.init
    rfl (Or.inl rfl)

/-! ## C21: the text of the SelectMethod screen -/

/-- A method name behind "Method: " fits the 33-byte line buffer. -/
theorem method_name_fits (table : List (List Nat))
    (ht : table = handshake_methods ∨ table = dos_methods) (m : Nat) :
    snprintf 33 (cstr "Method: " ++ table.getD (m % 3) [])
      = cstr "Method: " ++ table.getD (m % 3) [] := by
  have hr : m % 3 < 3 := Nat.mod_lt _ (by decide)
  generalize m % 3 = r at hr
  rcases ht with ht | ht <;> subst ht <;> interval_cases r <;> decide

/-- C21: a pass that shows the SelectMethod screen returns and renders as line 1
"Method: " followed by `handshake_methods[m % 3]` (ROGUE_AP, BROADCAST, PASSIVE)
when the type is Handshake, by `dos_methods[m % 3]` (ROGUE_AP, BROADCAST,
COMBINE) when it is DOS, and by the decimal of the `uint8_t` method `m`
otherwise, and as line 2 "(press to next)"; with type Handshake (1) and method 1
line 1 is "Method: BROADCAST". -/
theorem method_screen_text (env : Env) (s : UiState) (i : Inputs)
    (hmenu : s.menu = MENU_METHOD)
    (hcfg : s.ui_triggered_attack = false ∨ i.attack_status = none)
    (hm : s.selected_method < 256) :
    ∃ s' out, display_ui_iter env s i = some (s', out)
      ∧ out.view = View.config MENU_METHOD
      ∧ out.line1 = cstr "Method: " ++
          (if s.selected_type = ATTACK_TYPE_HANDSHAKE then
             handshake_methods.getD (s.selected_method % 3) []
           else if s.selected_type = ATTACK_TYPE_DOS then
             dos_methods.getD (s.selected_method % 3) []
           else fmt_u s.selected_method)
      ∧ out.line2 = cstr "(press to next)"
      ∧ handshake_methods = [cstr "ROGUE_AP", cstr "BROADCAST", cstr "PASSIVE"]
      ∧ dos_methods = [cstr "ROGUE_AP", cstr "BROADCAST", cstr "COMBINE"]
      ∧ (s.selected_type = 1 → s.selected_method = 1 →
          out.line1 = cstr "Method: BROADCAST") := by
  rw [iter_of_config env s i hcfg]
  cases hc : config_pass env s i with
  | none =>
    have := ((config_pass_eq_none_iff env s i).1 hc).1
    rw [hmenu] at this
    exact absurd this (by decide)
  | some r =>
    obtain ⟨s', out⟩ := r
    obtain ⟨h1, h2⟩ := config_pass_lines env s i s' out hc
    have hview := (config_pass_result env s i s' out hc).1
    rw [hmenu] at hview
    have hr : render_config env s =
        ((if s.selected_type = ATTACK_TYPE_HANDSHAKE then
            snprintf 33 (cstr "Method: " ++ handshake_methods.getD (s.selected_method % 3) [])
          else if s.selected_type = ATTACK_TYPE_DOS then
            snprintf 33 (cstr "Method: " ++ dos_methods.getD (s.selected_method % 3) [])
          else snprintf 33 (cstr "Method: " ++ fmt_u s.selected_method)),
         snprintf 33 (cstr "(press to next)")) := by
      simp only [render_config, hmenu, MENU_METHOD]
    rw [hr] at h1 h2
    have hline1 : out.line1 = cstr "Method: " ++
          (if s.selected_type = ATTACK_TYPE_HANDSHAKE then
             handshake_methods.getD (s.selected_method % 3) []
           else if s.selected_type = ATTACK_TYPE_DOS then
             dos_methods.getD (s.selected_method % 3) []
           else fmt_u s.selected_method) := by
      rw [h1]
      by_cases hhs : s.selected_type = ATTACK_TYPE_HANDSHAKE
      · rw [if_pos hhs, if_pos hhs]
        exact method_name_fits handshake_methods (Or.inl rfl) _
      · rw [if_neg hhs, if_neg hhs]
        by_cases hdos : s.selected_type = ATTACK_TYPE_DOS
        · rw [if_pos hdos, if_pos hdos]
          exact method_name_fits dos_methods (Or.inr rfl) _
        · rw [if_neg hdos, if_neg hdos]
          apply snprintf_of_fits
          have hd := fmt_u_length_le s.selected_method 3 (by decide) (by omega)
          have hc1 : (cstr "Method: ").length = 8 := by decide
          simp only [List.length_append, hc1]
          omega
    refine ⟨s', out, rfl, hview, hline1, ?_, rfl, rfl, ?_⟩
    · rw [h2]
      show snprintf 33 (cstr "(press to next)") = cstr "(press to next)"
      decide
    · intro hty hme
      rw [hline1, hty, hme]
      decide

theorem method_screen_text_witness :
    ∃ s' out, display_ui_iter env3
        { UiState.initial with menu := MENU_METHOD, selected_method := 1 } (idle none 0)
          = some (s', out)
      ∧ out.view = View.config MENU_METHOD
      ∧ out.line1 = cstr "Method: " ++
          (if (1 : Nat) = ATTACK_TYPE_HANDSHAKE then handshake_methods.getD (1 % 3) []
           else if (1 : Nat) = ATTACK_TYPE_DOS then dos_methods.getD (1 % 3) []
           else fmt_u 1)
      ∧ out.line2 = cstr "(press to next)"
      ∧ handshake_methods = [cstr "ROGUE_AP", cstr "BROADCAST", cstr "PASSIVE"]
      ∧ dos_methods = [cstr "ROGUE_AP", cstr "BROADCAST", cstr "COMBINE"]
      ∧ ((1 : Nat) = 1 → (1 : Nat) = 1 → out.line1 = cstr "Method: BROADCAST") :=
  method_screen_text env3 { UiState.initial with menu := MENU_METHOD, selected_method := 1 }
    (idle none 0) rfl (Or.inl rfl) (by decide)

/-! ## C22: the attack type stays inside the name table -/

/-- C22: in every reachable state `selected_type` is at most 3, below the length
4 of `attack_type_names`, so the lookups `attack_type_names[selected_type]` of
the SelectType screen and of the Running override are inside the table. -/
theorem attack_type_within_names (env : Env) (s : UiState) (hs : Reachable env s) :
    s.selected_type ≤ 3
      ∧ attack_type_names.length = 4
      ∧ s.selected_type < attack_type_names.length := by
  have hinv : ∀ r, Reachable env r → r.selected_type ≤ 3 := by
    apply reachable_induction env (fun r => r.selected_type ≤ 3)
    · decide
    · intro r hr
      show (on_button_up env r).selected_type ≤ 3
      unfold on_button_up
      repeat' split
      all_goals first
        | exact hr
        | exact le_trans (Nat.sub_le _ _) hr
    · intro r hr
      show (on_button_down env r).selected_type ≤ 3
      unfold on_button_down
      repeat' split
      all_goals first
        | exact hr
        | (show (r.selected_type + 1) % 256 ≤ 3
           have := Nat.mod_le (r.selected_type + 1) 256
           omega)
    · intro r i r' reqs hr hm
      show r'.selected_type ≤ 3
      rw [(on_button_middle_selection r i r' reqs hm).2.1]
      exact hr
    · intro r hr
      exact hr
  have h3 := hinv s hs
  have hlen : attack_type_names.length = 4 := rfl
  exact ⟨h3, hlen, by omega⟩

theorem attack_type_within_names_witness :
    UiState.initial.selected_type ≤ 3
      ∧ attack_type_names.length = 4
      ∧ UiState.initial.selected_type < attack_type_names.length :=
  attack_type_within_names env3 UiState.initial Reachable.init

/-! ## C23: the indices of the rasterizer -/

/-- The column loop is the sequence of its stores. -/
theorem draw_cols_eq_apply_writes (ch : List Nat) (page x : Int) (n : Nat) :
    ∀ (col : Int) (fb : Framebuffer),
      draw_cols ch page x n col fb = apply_writes fb (draw_cols_writes ch page x n col) := by
  induction n with
  | zero =>
    intro col fb
    rfl
  | succ n ih =>
    intro col fb
    simp only [draw_cols, draw_cols_writes]
    by_cases hedge : x + col ≥ DISPLAY_WIDTH
    · rw [if_pos hedge, if_pos hedge]
      rfl
    · rw [if_neg hedge, if_neg hedge, ih]
      rfl

/-- The stores of the column loop stay inside the page. -/
theorem draw_cols_writes_bounds (ch : List Nat) (page x : Int) (hp0 : 0 ≤ page)
    (hp8 : page < 8) (hx : 0 ≤ x) (n : Nat) :
    ∀ (col : Int), 0 ≤ col → ∀ w ∈ draw_cols_writes ch page x n col,
      0 ≤ w.1 ∧ w.1 < 1024 := by
  induction n with
  | zero =>
    intro col _ w hw
    simp [draw_cols_writes] at hw
  | succ n ih =>
    intro col hcol w hw
    simp only [draw_cols_writes] at hw
    by_cases hedge : x + col ≥ DISPLAY_WIDTH
    · rw [if_pos hedge] at hw
      simp at hw
    · rw [if_neg hedge, List.mem_cons] at hw
      unfold DISPLAY_WIDTH at hedge
      rcases hw with hw | hw
      · subst hw
        unfold DISPLAY_WIDTH
        constructor <;> dsimp only <;> omega
      · exact ih (col + 1) (by omega) w hw

/-- `draw_char` is the sequence of its stores. -/
theorem draw_char_eq_apply_writes (fb : Framebuffer) (x y c : Int) :
    (draw_char fb x y c).1 = apply_writes fb (draw_char_writes x y c) := by
  rw [draw_char_eq]
  unfold draw_char_writes
  simp only
  by_cases hpage : y.tdiv 8 < 0 ∨ y.tdiv 8 ≥ DISPLAY_PAGES
  · rw [if_pos hpage, if_pos hpage]
    rfl
  · rw [if_neg hpage, if_neg hpage]
    by_cases hcol : x < 0 ∨ x ≥ DISPLAY_WIDTH
    · rw [if_pos hcol, if_pos hcol]
      rfl
    · rw [if_neg hcol, if_neg hcol]
      have hg : glyph c = font5x7.getD (font_row_index c).toNat [] := rfl
      rw [← hg]
      by_cases h5 : x + 5 < DISPLAY_WIDTH
      · rw [if_pos h5, if_pos h5]
        dsimp only
        rw [draw_cols_eq_apply_writes]
        simp [apply_writes, List.foldl_append]
      · rw [if_neg h5, if_neg h5]
        dsimp only
        rw [draw_cols_eq_apply_writes, List.append_nil]

/-- C23: for every `x`, every `y` and every character value (of a signed or an
unsigned `char`), what `draw_char` does to the framebuffer is the sequence of
stores `draw_char_writes`, every one of them at an index in [0, 1024), and the
row of `font5x7` it reads is at an index in [0, 96), the length of the table. -/
theorem draw_char_indices_in_bounds (fb : Framebuffer) (x y c : Int) :
    (draw_char fb x y c).1 = apply_writes fb (draw_char_writes x y c)
      ∧ (∀ w ∈ draw_char_writes x y c, 0 ≤ w.1 ∧ w.1 < 1024)
      ∧ 0 ≤ font_row_index c ∧ font_row_index c < 96
      ∧ font5x7.length = 96
      ∧ glyph c = font5x7.getD (font_row_index c).toNat [] := by
  refine ⟨draw_char_eq_apply_writes fb x y c, ?_, ?_, ?_, rfl, rfl⟩
  · intro w hw
    unfold draw_char_writes at hw
    simp only at hw
    by_cases hpage : y.tdiv 8 < 0 ∨ y.tdiv 8 ≥ DISPLAY_PAGES
    · rw [if_pos hpage] at hw
      simp at hw
    · rw [if_neg hpage] at hw
      by_cases hcol : x < 0 ∨ x ≥ DISPLAY_WIDTH
      · rw [if_pos hcol] at hw
        simp at hw
      · rw [if_neg hcol, List.mem_append] at hw
        unfold DISPLAY_PAGES DISPLAY_HEIGHT at hpage
        unfold DISPLAY_WIDTH at hcol
        have hp0 : 0 ≤ y.tdiv 8 := by omega
        have hp8 : y.tdiv 8 < 8 := by omega
        rcases hw with hw | hw
        · exact draw_cols_writes_bounds _ _ x hp0 hp8 (by omega) 5 0 (le_refl 0) w hw
        · by_cases h5 : x + 5 < DISPLAY_WIDTH
          · rw [if_pos h5, List.mem_singleton] at hw
            subst hw
            unfold DISPLAY_WIDTH at h5 ⊢
            constructor <;> dsimp only <;> omega
          · rw [if_neg h5] at hw
            simp at hw
  · unfold font_row_index
    split <;> omega
  · unfold font_row_index
    split <;> omega

theorem draw_char_indices_in_bounds_witness :
    (draw_char (fun _ => 0) 126 56 (-3)).1
        = apply_writes (fun _ => 0) (draw_char_writes 126 56 (-3))
      ∧ (∀ w ∈ draw_char_writes 126 56 (-3), 0 ≤ w.1 ∧ w.1 < 1024)
      ∧ 0 ≤ font_row_index (-3) ∧ font_row_index (-3) < 96
      ∧ font5x7.length = 96
      ∧ glyph (-3) = font5x7.getD (font_row_index (-3)).toNat [] :=
  draw_char_indices_in_bounds (fun _ => 0) 126 56 (-3)

/-! ## C24: the frame of `display_text` -/

/-- Where `draw_char` returns at one of its guards it changes nothing and does
not advance. -/
theorem draw_char_guarded (fb : Framebuffer) (x y c : Int)
    (h : y.tdiv 8 < 0 ∨ y.tdiv 8 ≥ 8 ∨ x < 0 ∨ x ≥ 128) :
    draw_char fb x y c = (fb, 0) := by
  rw [draw_char_eq]
  unfold DISPLAY_PAGES DISPLAY_HEIGHT DISPLAY_WIDTH
  by_cases hpage : y.tdiv 8 < 0 ∨ y.tdiv 8 ≥ 64 / 8
  · rw [if_pos hpage]
  · rw [if_neg hpage, if_pos]
    omega

/-- A text loop whose every `draw_char` returns at a guard leaves the
framebuffer as it was; it ends with the string. -/
theorem display_text_loop_guarded (x y : Int)
    (h : y.tdiv 8 < 0 ∨ y.tdiv 8 ≥ 8 ∨ x < 0 ∨ x ≥ 128) (t : List Int) :
    ∀ fb : Framebuffer, display_text_loop y t x fb = fb := by
  induction t with
  | nil =>
    intro fb
    rfl
  | cons c rest ih =>
    intro fb
    unfold display_text_loop
    by_cases hc : c = 0
    · rw [if_pos hc]
    · rw [if_neg hc]
      by_cases hx : x < DISPLAY_WIDTH
      · rw [if_pos hx, draw_char_guarded fb x y c h]
        dsimp only
        rw [Int.add_zero]
        exact ih fb
      · rw [if_neg hx]

/-- C24: for every framebuffer, every `x`, every page-aligned `y` and every
string (of C length `n`, the characters before the first NUL),
`display_text(x, y, s)` is defined (the loop consumes one character per pass) and
a byte it changes lies on page `y/8` of the display at a column of
`[x, x + 6n)` and of `[0, 128)`; for `x < 0` it returns the framebuffer
unchanged. -/
theorem display_text_frame (fb : Framebuffer) (x y : Int) (t : List Int)
    (hy : (8 : Int) ∣ y) :
    (∀ k : Nat, display_text fb x y (some t) k ≠ fb k →
        ∃ col : Int, 0 ≤ col ∧ col < 128 ∧ x ≤ col
          ∧ col < x + 6 * ((c_string t).length : Int)
          ∧ 0 ≤ y.tdiv 8 ∧ y.tdiv 8 < 8
          ∧ (k : Int) = y.tdiv 8 * 128 + col)
      ∧ (x < 0 → display_text fb x y (some t) = fb) := by
  have hmod : ¬ y.tmod 8 ≠ 0 := by
    rw [ne_eq, not_not]
    exact Int.tmod_eq_zero_of_dvd hy
  have hloop : display_text fb x y (some t) = display_text_loop y t x fb := by
    simp only [display_text]
    rw [if_neg hmod]
  refine ⟨?_, ?_⟩
  · intro k hk
    by_cases hg : y.tdiv 8 < 0 ∨ y.tdiv 8 ≥ 8 ∨ x < 0 ∨ x ≥ 128
    · rw [hloop, display_text_loop_guarded x y hg t fb] at hk
      exact absurd rfl hk
    · obtain ⟨m, rfl⟩ := hy
      have hpage : ((8 : Int) * m).tdiv 8 = m := by
        rw [Int.tdiv_eq_ediv_of_dvd (Dvd.intro m rfl)]
        omega
      rw [hpage] at hg ⊢
      obtain ⟨p, rfl⟩ : ∃ p : Nat, m = (p : Int) := ⟨m.toNat, by omega⟩
      obtain ⟨x0, rfl⟩ : ∃ x0 : Nat, x = (x0 : Int) := ⟨x.toNat, by omega⟩
      have hp : p < 8 := by omega
      rw [display_text_apply fb p x0 hp t k] at hk
      by_cases hin : p * 128 + x0 ≤ k ∧ k < p * 128 + 128
          ∧ (k - (p * 128 + x0)) / 6 < (c_string t).length
      · refine ⟨((k - p * 128 : Nat) : Int), ?_⟩
        obtain ⟨h1, h2, h3⟩ := hin
        have h4 : k - (p * 128 + x0) < 6 * (c_string t).length := by omega
        omega
      · rw [if_neg hin] at hk
        exact absurd rfl hk
  · intro hx
    rw [hloop]
    exact display_text_loop_guarded x y (Or.inr (Or.inr (Or.inl hx))) t fb

theorem display_text_frame_witness :
    (∀ k : Nat, display_text (fun _ => 255) 120 8 (some [65, 66, 0, 67]) k
          ≠ (fun _ => 255 : Framebuffer) k →
        ∃ col : Int, 0 ≤ col ∧ col < 128 ∧ 120 ≤ col
          ∧ col < 120 + 6 * ((c_string [65, 66, 0, 67]).length : Int)
          ∧ 0 ≤ (8 : Int).tdiv 8 ∧ (8 : Int).tdiv 8 < 8
          ∧ (k : Int) = (8 : Int).tdiv 8 * 128 + col)
      ∧ ((120 : Int) < 0 →
          display_text (fun _ => 255) 120 8 (some [65, 66, 0, 67]) = (fun _ => 255)) :=
  display_text_frame (fun _ => 255) 120 8 [65, 66, 0, 67] (by decide)

/-! ## C25: Down and Up on the SelectMethod screen -/

/-- A pass of the loop with the flag clear and only Down pressed. -/
theorem iter_pressDown (env : Env) (s : UiState) (st : Option attack_state_t) (now : Nat)
    (hflag : s.ui_triggered_attack = false) :
    display_ui_iter env s (pressDown st now) =
      some (on_button_down env s,
            { view := View.config s.menu, line1 := (render_config env s).1,
              line2 := (render_config env s).2, posted := [] }) := by
  rw [iter_of_config env s _ (Or.inl hflag), config_pass_pressDown]

/-- A pass of the loop with the flag clear and only Up pressed. -/
theorem iter_pressUp (env : Env) (s : UiState) (st : Option attack_state_t) (now : Nat)
    (hflag : s.ui_triggered_attack = false) :
    display_ui_iter env s (pressUp st now) =
      some (on_button_up env s,
            { view := View.config s.menu, line1 := (render_config env s).1,
              line2 := (render_config env s).2, posted := [] }) := by
  rw [iter_of_config env s _ (Or.inl hflag), config_pass_pressUp]

/-- A run that begins with a Down press, as far as the state goes. -/
theorem run_pressDown_cons (env : Env) (s : UiState) (st : Option attack_state_t)
    (now : Nat) (rest : List Inputs) (hflag : s.ui_triggered_attack = false) :
    (run env s (pressDown st now :: rest)).map Prod.fst
      = (run env (on_button_down env s) rest).map Prod.fst := by
  simp only [run, iter_pressDown env s st now hflag]
  cases run env (on_button_down env s) rest <;> rfl

/-- Down on the method screen under Handshake or DOS. -/
theorem on_button_down_method_named (env : Env) (s : UiState) (hmenu : s.menu = MENU_METHOD)
    (hty : s.selected_type = ATTACK_TYPE_HANDSHAKE ∨ s.selected_type = ATTACK_TYPE_DOS) :
    on_button_down env s = { s with selected_method := (s.selected_method + 1) % 3 } := by
  obtain ⟨m, a, ty, me, tmo, tk, ba, fl⟩ := s
  simp only at hmenu hty
  subst hmenu
  rcases hty with hty | hty <;> subst hty <;>
    simp [on_button_down, MENU_METHOD, MENU_AP, MENU_TYPE, ATTACK_TYPE_HANDSHAKE,
      ATTACK_TYPE_DOS]

/-- Three Downs on the method screen under Handshake or DOS, from a method in
{0, 1, 2}. -/
theorem on_button_down_thrice (env : Env) (s : UiState) (hmenu : s.menu = MENU_METHOD)
    (hty : s.selected_type = ATTACK_TYPE_HANDSHAKE ∨ s.selected_type = ATTACK_TYPE_DOS)
    (hm : s.selected_method < 3) :
    on_button_down env (on_button_down env (on_button_down env s)) = s := by
  obtain ⟨m, a, ty, me, tmo, tk, ba, fl⟩ := s
  simp only at hmenu hty hm
  subst hmenu
  rcases hty with hty | hty <;> subst hty <;>
    simp [on_button_down, MENU_METHOD, MENU_AP, MENU_TYPE, ATTACK_TYPE_HANDSHAKE,
      ATTACK_TYPE_DOS] <;> omega

/-- Down on the method screen under the other types. -/
theorem on_button_down_method_other (env : Env) (s : UiState) (hmenu : s.menu = MENU_METHOD)
    (h1 : s.selected_type ≠ ATTACK_TYPE_HANDSHAKE) (h2 : s.selected_type ≠ ATTACK_TYPE_DOS) :
    on_button_down env s = { s with selected_method := (s.selected_method + 1) % 256 } := by
  obtain ⟨m, a, ty, me, tmo, tk, ba, fl⟩ := s
  simp only at hmenu h1 h2
  subst hmenu
  simp [on_button_down, MENU_METHOD, MENU_AP, MENU_TYPE, h1, h2]

/-- Up on the method screen, whatever the type. -/
theorem on_button_up_method (env : Env) (s : UiState) (hmenu : s.menu = MENU_METHOD) :
    on_button_up env s =
      { s with selected_method :=
          if 0 < s.selected_method then s.selected_method - 1 else s.selected_method } := by
  obtain ⟨m, a, ty, me, tmo, tk, ba, fl⟩ := s
  simp only at hmenu
  subst hmenu
  by_cases hme : 0 < me <;>
    simp [on_button_up, MENU_METHOD, MENU_AP, MENU_TYPE, hme]

/-- C25: on the SelectMethod screen with the flag clear.  Under Handshake or DOS
a pass with only Down pressed sets the method to `(method + 1) mod 3`, a value
in {0, 1, 2} whatever the method was before, and from a method in {0, 1, 2} three
such passes give back the same state.  A pass with only Up pressed decrements
the method when it is positive and leaves 0 at 0.  Under the other types a pass
with only Down pressed sets the method to `(method + 1) mod 256`. -/
theorem method_down_cycles_up_stops (env : Env) (s : UiState) (st : Option attack_state_t)
    (now : Nat) (hmenu : s.menu = MENU_METHOD) (hflag : s.ui_triggered_attack = false) :
    (s.selected_type = ATTACK_TYPE_HANDSHAKE ∨ s.selected_type = ATTACK_TYPE_DOS →
        (display_ui_iter env s (pressDown st now)).map Prod.fst
            = some { s with selected_method := (s.selected_method + 1) % 3 }
          ∧ (s.selected_method + 1) % 3 < 3
          ∧ (s.selected_method < 3 →
              (run env s (List.replicate 3 (pressDown st now))).map Prod.fst = some s))
      ∧ (display_ui_iter env s (pressUp st now)).map Prod.fst
          = some { s with selected_method :=
              if 0 < s.selected_method then s.selected_method - 1 else s.selected_method }
      ∧ (s.selected_type ≠ ATTACK_TYPE_HANDSHAKE → s.selected_type ≠ ATTACK_TYPE_DOS →
          (display_ui_iter env s (pressDown st now)).map Prod.fst
            = some { s with selected_method := (s.selected_method + 1) % 256 }) := by
  refine ⟨?_, ?_, ?_⟩
  · intro hty
    refine ⟨?_, Nat.mod_lt _ (by decide), ?_⟩
    · rw [iter_pressDown env s st now hflag, Option.map_some',
        on_button_down_method_named env s hmenu hty]
    · intro hm
      have hf1 : (on_button_down env s).ui_triggered_attack = false :=
        (on_button_down_frame env s).2.1.trans hflag
      have hf2 : (on_button_down env (on_button_down env s)).ui_triggered_attack = false :=
        (on_button_down_frame env _).2.1.trans hf1
      show (run env s [pressDown st now, pressDown st now, pressDown st now]).map Prod.fst
        = some s
      rw [run_pressDown_cons env s st now _ hflag,
        run_pressDown_cons env (on_button_down env s) st now _ hf1,
        run_pressDown_cons env (on_button_down env (on_button_down env s)) st now _ hf2,
        on_button_down_thrice env s hmenu hty hm]
      rfl
  · rw [iter_pressUp env s st now hflag, Option.map_some', on_button_up_method env s hmenu]
  · intro h1 h2
    rw [iter_pressDown env s st now hflag, Option.map_some',
      on_button_down_method_other env s hmenu h1 h2]

theorem method_down_cycles_up_stops_witness :
    (UiState.selected_type { UiState.initial with menu := MENU_METHOD, selected_method := 2 }
          = ATTACK_TYPE_HANDSHAKE
        ∨ UiState.selected_type
            { UiState.initial with menu := MENU_METHOD, selected_method := 2 }
          = ATTACK_TYPE_DOS →
        (display_ui_iter env3
            { UiState.initial with menu := MENU_METHOD, selected_method := 2 }
            (pressDown none 0)).map Prod.fst
            = some { UiState.initial with menu := MENU_METHOD, selected_method := 0 }
          ∧ (2 + 1) % 3 < 3
          ∧ (2 < 3 →
              (run env3 { UiState.initial with menu := MENU_METHOD, selected_method := 2 }
                (List.replicate 3 (pressDown none 0))).map Prod.fst
              = some { UiState.initial with menu := MENU_METHOD, selected_method := 2 }))
      ∧ (display_ui_iter env3
            { UiState.initial with menu := MENU_METHOD, selected_method := 2 }
            (pressUp none 0)).map Prod.fst
          = some { UiState.initial with menu := MENU_METHOD, selected_method := 1 }
      ∧ (UiState.selected_type
            { UiState.initial with menu := MENU_METHOD, selected_method := 2 }
          ≠ ATTACK_TYPE_HANDSHAKE →
          UiState.selected_type
            { UiState.initial with menu := MENU_METHOD, selected_method := 2 }
          ≠ ATTACK_TYPE_DOS →
          (display_ui_iter env3
              { UiState.initial with menu := MENU_METHOD, selected_method := 2 }
              (pressDown none 0)).map Prod.fst
            = some { UiState.initial with menu := MENU_METHOD, selected_method := 3 }) :=
  method_down_cycles_up_stops env3
    { UiState.initial with menu := MENU_METHOD, selected_method := 2 } none 0 rfl rfl

/-! ## C26: the LCD variant against the OLED variant -/

theorem lcd_on_button_up_eq (env : Env) (s : UiState) :
    lcd_on_button_up env s = on_button_up env s := rfl

theorem lcd_on_button_down_eq (env : Env) (s : UiState) :
    lcd_on_button_down env s = on_button_down env s := rfl

theorem lcd_on_button_middle_eq (s : UiState) (i : Inputs) :
    lcd_on_button_middle s i = on_button_middle s i := rfl

/-- The shorter buffer keeps the first 16 characters of what the longer one
keeps. -/
theorem snprintf_17_eq (text : List Nat) : snprintf 17 text = (snprintf 33 text).take 16 := by
  simp [snprintf, List.take_take]

/-- The same for the SSID line, printed with precision 16 instead of 32. -/
theorem snprintf_17_ssid (buf : List Nat) :
    snprintf 17 (fmt_prec_s 16 buf) = (snprintf 33 (fmt_prec_s 32 buf)).take 16 := by
  simp [snprintf, fmt_prec_s, List.take_take]

/-- The lines of the LCD menu are the first 16 characters of the OLED lines. -/
theorem lcd_render_config_eq (env : Env) (s : UiState) :
    lcd_render_config env s
      = ((render_config env s).1.take 16, (render_config env s).2.take 16) := by
  unfold lcd_render_config render_config
  generalize s.menu = m
  rcases m with _ | _ | _ | _ | _ | m
  · by_cases hc : 0 < env.ap_count
    · simp only [if_pos hc]
      rw [snprintf_17_ssid, snprintf_17_eq]
    · simp only [if_neg hc, snprintf_17_eq]
  · simp only [snprintf_17_eq]
  · simp only [snprintf_17_eq]
    split
    · rfl
    · split <;> rfl
  · simp only [snprintf_17_eq]
  · simp only [snprintf_17_eq]
  · rfl

/-- The configuration pass of the LCD variant is that of the OLED variant with
the lines cut to 16 characters. -/
theorem lcd_config_pass_eq (env : Env) (s : UiState) (i : Inputs) :
    lcd_config_pass env s i = (config_pass env s i).map (fun r => (r.1, first16 r.2)) := by
  unfold lcd_config_pass config_pass
  simp only [lcd_on_button_up_eq, lcd_on_button_down_eq, lcd_on_button_middle_eq,
    lcd_render_config_eq]
  cases i.button_middle with
  | false => rfl
  | true =>
    simp only [if_true]
    cases on_button_middle
      (if i.button_down = true then
        on_button_down env (if i.button_up = true then on_button_up env s else s)
       else if i.button_up = true then on_button_up env s else s) i <;> rfl

/-- C26: from the same state and the same inputs, a pass of `lcd_ui_task` and a
pass of `display_ui_task` either both abort (the failed post) or both return,
with the same next state (screen, selection, flag, dispatch tick, countdown
base), the same published requests and the same rendering branch, and each
line given to `lcd_print_lines` is the first 16 characters of the line given to
`display_print_lines`. -/
theorem lcd_ui_refines_display_ui (env : Env) (s : UiState) (i : Inputs) :
    lcd_ui_iter env s i = (display_ui_iter env s i).map (fun r => (r.1, first16 r.2))
      ∧ (lcd_ui_iter env s i).map Prod.fst = (display_ui_iter env s i).map Prod.fst
      ∧ (lcd_ui_iter env s i).map (fun r => r.2.posted)
          = (display_ui_iter env s i).map (fun r => r.2.posted)
      ∧ (∀ sl ol so oo, lcd_ui_iter env s i = some (sl, ol) →
          display_ui_iter env s i = some (so, oo) →
          sl = so ∧ ol.posted = oo.posted ∧ ol.view = oo.view
            ∧ ol.line1 = oo.line1.take 16 ∧ ol.line2 = oo.line2.take 16) := by
  have hmain : lcd_ui_iter env s i
      = (display_ui_iter env s i).map (fun r => (r.1, first16 r.2)) := by
    unfold lcd_ui_iter display_ui_iter
    by_cases h1 : (s.ui_triggered_attack && status_running i.attack_status) = true
    · rw [if_pos h1, if_pos h1]
      cases i.button_middle <;>
        simp [lcd_running_output, running_output, first16, lcd_leave_override,
          leave_override, snprintf_17_eq, lcd_remaining_seconds, remaining_seconds]
    · rw [if_neg h1, if_neg h1]
      by_cases h2 : (s.ui_triggered_attack && status_not_running i.attack_status) = true
      · rw [if_pos h2, if_pos h2]
        cases i.button_middle <;>
          simp [lcd_finished_output, finished_output, first16, lcd_leave_override,
            leave_override, snprintf_17_eq]
      · rw [if_neg h2, if_neg h2]
        exact lcd_config_pass_eq env s i
  refine ⟨hmain, ?_, ?_, ?_⟩
  · rw [hmain]
    cases display_ui_iter env s i <;> rfl
  · rw [hmain]
    cases display_ui_iter env s i <;> rfl
  · intro sl ol so oo hl ho
    rw [hmain, ho] at hl
    simp only [Option.map_some', Option.some.injEq, Prod.mk.injEq] at hl
    obtain ⟨h1, h2⟩ := hl
    subst h1 h2
    exact ⟨rfl, rfl, rfl, rfl, rfl⟩

theorem lcd_ui_refines_display_ui_witness :
    lcd_ui_iter env3 { UiState.initial with menu := MENU_METHOD, selected_method := 1 }
          (pressSelect none 0)
        = (display_ui_iter env3
            { UiState.initial with menu := MENU_METHOD, selected_method := 1 }
            (pressSelect none 0)).map (fun r => (r.1, first16 r.2))
      ∧ (lcd_ui_iter env3 { UiState.initial with menu := MENU_METHOD, selected_method := 1 }
          (pressSelect none 0)).map Prod.fst
        = (display_ui_iter env3
            { UiState.initial with menu := MENU_METHOD, selected_method := 1 }
            (pressSelect none 0)).map Prod.fst
      ∧ (lcd_ui_iter env3 { UiState.initial with menu := MENU_METHOD, selected_method := 1 }
          (pressSelect none 0)).map (fun r => r.2.posted)
        = (display_ui_iter env3
            { UiState.initial with menu := MENU_METHOD, selected_method := 1 }
            (pressSelect none 0)).map (fun r => r.2.posted)
      ∧ (∀ sl ol so oo,
          lcd_ui_iter env3 { UiState.initial with menu := MENU_METHOD, selected_method := 1 }
            (pressSelect none 0) = some (sl, ol) →
          display_ui_iter env3
            { UiState.initial with menu := MENU_METHOD, selected_method := 1 }
            (pressSelect none 0) = some (so, oo) →
          sl = so ∧ ol.posted = oo.posted ∧ ol.view = oo.view
            ∧ ol.line1 = oo.line1.take 16 ∧ ol.line2 = oo.line2.take 16) :=
  lcd_ui_refines_display_ui env3
    { UiState.initial with menu := MENU_METHOD, selected_method := 1 } (pressSelect none 0)

end DisplayUi
